import Mathlib

/-!
# Verification of the dynatrace-service dashboard SLI/SLO derivation engine

Shallow embedding of the SLI/SLO derivation core of the `dynatrace-service`
repository (package `dynatrace`, file with `scaleData`, `IsValidUUID`,
`findDynatraceDashboard`, `HasDashboardChanged`, `BuildDynatraceMetricsQuery`,
`GenerateSLISLOFromMetricsAPIQuery`, `GetSLIValue`, ...).

Modelling conventions:
* Go `string` is Lean `String`; string algorithms are re-implemented over
  `List Char` with structural recursion so that all definitions evaluate by
  kernel reduction.  Go's `strings.ToLower` is Unicode-aware; the model uses
  ASCII lowering (`Char.toLower`), which agrees on all inputs of interest.
* Go `float64` is modelled as `ℚ`.  All numeric operations appearing in the
  code (sums, division by constants) are exact in this fragment.  A Go
  division by zero yields NaN; in `ℚ` it yields `0` (no claim touches this).
* `time.Time` window bounds are modelled as `Int` Unix-millisecond values.
* HTTP calls are modelled as oracle functions ("backends") from the request
  data to `Except String result`; the oracle stands for
  `executeDynatraceREST` + `checkApiResponse` + JSON decoding.
* Go's `url.Values` (a multimap) is modelled as a `List (String × String)`
  of parameters in insertion order; `Values.Add` appends, `Values.Get`
  returns the first value for the key.  `Values.Encode` (percent-encoding +
  key sorting) is not modelled: a built query is represented by its final
  parameter list.  Percent-decoding in `url.ParseQuery` is not modelled
  (all queries of interest contain no escapes).
-/

namespace DynatraceService

/-! ## String helpers (structural re-implementations of Go `strings` functions) -/

/-- `containsSubL cs pat`: does `pat` occur as a contiguous sublist of `cs`?
Mirrors Go `strings.Contains` for nonempty `pat` (every call site passes a
nonempty pattern). -/
def containsSubL : List Char → List Char → Bool
  | [], pat => pat.isEmpty
  | c :: rest, pat => pat.isPrefixOf (c :: rest) || containsSubL rest pat

/-- Go `strings.Contains s pat` (nonempty `pat` at every call site). -/
def strContains (s pat : String) : Bool := containsSubL s.data pat.data

/-- Replace the first occurrence of `pat` in `cs` by `rep`; Go
`strings.Replace(s, pat, rep, 1)`.  For empty `pat` Go prepends `rep`;
call sites never pass an empty pattern. -/
def replaceFirstL (cs pat rep : List Char) : List Char :=
  match cs with
  | [] => if pat.isEmpty then rep else []
  | c :: rest =>
    if pat ≠ [] ∧ pat.isPrefixOf (c :: rest) then rep ++ (c :: rest).drop pat.length
    else c :: replaceFirstL rest pat rep

/-- Go `strings.Replace(s, pat, rep, 1)`. -/
def strReplaceFirst (s pat rep : String) : String :=
  ⟨replaceFirstL s.data pat.data rep.data⟩

/-- Fuel-indexed worker for `strReplaceAll`; scanning continues after each
replacement (Go `strings.Replace(s, pat, rep, -1)` semantics, non-empty
`pat`).  Fuel `cs.length` always suffices. -/
def replaceAllL : Nat → List Char → List Char → List Char → List Char
  | 0, cs, _, _ => cs
  | fuel + 1, cs, pat, rep =>
    match cs with
    | [] => []
    | c :: rest =>
      if pat ≠ [] ∧ pat.isPrefixOf (c :: rest) then
        rep ++ replaceAllL fuel ((c :: rest).drop pat.length) pat rep
      else c :: replaceAllL fuel rest pat rep

/-- Go `strings.Replace(s, pat, rep, -1)` (nonempty `pat` at call sites). -/
def strReplaceAll (s pat rep : String) : String :=
  ⟨replaceAllL s.data.length s.data pat.data rep.data⟩

/-- Worker for `strSplitOn`: `skip` counts separator characters still to be
consumed after a separator match, `acc` is the current token (reversed),
`out` the finished tokens (reversed). -/
def splitOnStep (sep : List Char) : List Char → Nat → List Char → List (List Char) → List (List Char)
  | [], _, acc, out => (acc.reverse :: out).reverse
  | _ :: rest, skip + 1, acc, out => splitOnStep sep rest skip acc out
  | c :: rest, 0, acc, out =>
    if sep ≠ [] ∧ sep.isPrefixOf (c :: rest) then
      splitOnStep sep rest (sep.length - 1) [] (acc.reverse :: out)
    else splitOnStep sep rest 0 (c :: acc) out

/-- Go `strings.Split(s, sep)` for nonempty `sep` (every call site).  Always
returns at least one element. -/
def strSplitOn (s sep : String) : List String :=
  (splitOnStep sep.data s.data 0 [] []).map String.mk

/-- Go `strings.HasPrefix(s, p)`. -/
def strStartsWith (p s : String) : Bool := p.data.isPrefixOf s.data

/-- Go `strings.ToLower` restricted to ASCII (sufficient for all inputs of
interest; dashboard-name matching only involves ASCII tokens). -/
def strToLower (s : String) : String := ⟨s.data.map Char.toLower⟩

/-- Go `strings.ToUpper` restricted to ASCII. -/
def strToUpper (s : String) : String := ⟨s.data.map Char.toUpper⟩

/-- Drop the first `n` characters; Go slice `s[n:]` (ASCII). -/
def strDrop (s : String) (n : Nat) : String := ⟨s.data.drop n⟩

/-- Split at the first occurrence of character `sep`: returns the part
before and the part after (separator removed).  Go
`idx := strings.Index(s, sep); (s[:idx], s[idx+1:])`.  When `sep` does not
occur Go's slicing with `idx = -1` panics; the model returns `(cs, [])`
(no claim exercises that input). -/
def breakAtCharL (sep : Char) : List Char → List Char × List Char
  | [] => ([], [])
  | c :: rest =>
    if c == sep then ([], rest)
    else
      let (pre, post) := breakAtCharL sep rest
      (c :: pre, post)

/-- String version of `breakAtCharL`. -/
def strBreakAtChar (s : String) (sep : Char) : String × String :=
  let (pre, post) := breakAtCharL sep s.data
  (⟨pre⟩, ⟨post⟩)

/-- Remove every occurrence of character `c`; Go
`strings.Replace(s, c, "", -1)` for a one-character pattern. -/
def strRemoveChar (s : String) (c : Char) : String :=
  ⟨s.data.filter (fun d => d ≠ c)⟩

/-- Decimal digits parser used by the spec-modelled title parser: reads all
digit characters, ignoring others. -/
def parseNatLoose (s : String) : Nat :=
  s.data.foldl (fun n c => if '0' ≤ c ∧ c ≤ '9' then n * 10 + (c.toNat - 48) else n) 0

/-! ## Association-list maps (Go `map[string]string` with insertion order) -/

/-- Go map assignment `m[k] = v`: replace the binding if present, else append. -/
def mapPut (m : List (String × String)) (k v : String) : List (String × String) :=
  match m with
  | [] => [(k, v)]
  | (k', v') :: rest => if k' == k then (k, v) :: rest else (k', v') :: mapPut rest k v

/-- Go map lookup `m[k]`. -/
def mapGet? (m : List (String × String)) (k : String) : Option String :=
  match m.find? (fun p => p.1 == k) with
  | some p => some p.2
  | none => none

/-! ## Data model (`dynatrace` package structs) -/

/-- `MetricQueryResultNumbers`: one data row of a metrics-API result. -/
structure MetricQueryResultNumbers where
  dimensions : List String
  timestamps : List Int
  values : List ℚ
deriving DecidableEq, Repr

/-- `MetricQueryResultValues`: one per-metric entry of a metrics-API result. -/
structure MetricQueryResultValues where
  metricID : String
  data : List MetricQueryResultNumbers
deriving DecidableEq, Repr

/-- `DynatraceMetricsQueryResult`: body of `/api/v2/metrics/query`. -/
structure DynatraceMetricsQueryResult where
  totalCount : Nat
  nextPageKey : String
  result : List MetricQueryResultValues
deriving DecidableEq, Repr

/-- `keptnv2.SLIResult`. -/
structure SLIResult where
  metric : String
  value : ℚ
  success : Bool
  message : String := ""
deriving DecidableEq, Repr

/-- `keptncommon.SLOCriteria`. -/
structure SLOCriteria where
  criteria : List String
deriving DecidableEq, Repr

/-- `keptncommon.SLO` (one objective). -/
structure SLO where
  sli : String
  pass : List SLOCriteria
  warning : List SLOCriteria
  weight : Int
  keySLI : Bool
deriving DecidableEq, Repr

/-- The two outputs `GenerateSLISLOFromMetricsAPIQuery` mutates through
pointers: `dashboardSLI.Indicators` and `dashboardSLO.Objectives`. -/
structure DashboardState where
  indicators : List (String × String)
  objectives : List SLO
deriving DecidableEq, Repr

/-- Return value of the synthesizer: the fresh `sliResults` list plus the
mutated dashboard state. -/
structure GenResult where
  sliResults : List SLIResult
  state : DashboardState
deriving DecidableEq, Repr

/-- One entry of the `/api/config/v1/dashboards` listing. -/
structure DashboardStub where
  id : String
  name : String
  owner : String
deriving DecidableEq, Repr

/-- The `common_sli.BaseKeptnEvent` fields used by `findDynatraceDashboard`. -/
structure BaseKeptnEvent where
  project : String
  stage : String
  service : String
deriving DecidableEq, Repr

/-- A Handler custom filter (`ph.CustomFilters` entries used by
`replaceQueryParameters`). -/
structure CustomFilter where
  key : String
  value : String
deriving DecidableEq, Repr

/-- The final metrics-query request produced by `BuildDynatraceMetricsQuery`:
the query-parameter multimap of the URL
`<apiURL>/api/v2/metrics/query/?<encoded params>` (see module comment on
`url.Values`). -/
structure MetricsRequest where
  params : List (String × String)
deriving DecidableEq, Repr

/-- Oracle for the metrics-query HTTP endpoint (transport + status check +
JSON decoding). -/
def MetricsBackend : Type := MetricsRequest → Except String DynatraceMetricsQueryResult

/-! ## `scaleData` -/

/-- `scaleData`: unit scaling of a queried value (microseconds → milliseconds,
bytes → kilobytes), with a response-time metric-ID heuristic. -/
def scaleData (metricID unit : String) (value : ℚ) : ℚ :=
  if unit == "MicroSecond" || strContains metricID "builtin:service.response.time" then
    value / 1000
  else if unit == "Byte" then
    value / 1024
  else
    value

/-! ## `IsValidUUID` -/

/-- One character class of the UUID regex: `[a-fA-F0-9]`. -/
def hexChar (c : Char) : Bool :=
  ('a' ≤ c && c ≤ 'f') || ('A' ≤ c && c ≤ 'F') || ('0' ≤ c && c ≤ '9')

/-- The variant character class as written in the source regex,
`[8|9|aA|bB]`: inside a character class `|` is a literal, so the class is
`{8, |, 9, a, A, b, B}`. -/
def variantClassChar (c : Char) : Bool :=
  c == '8' || c == '|' || c == '9' || c == 'a' || c == 'A' || c == 'b' || c == 'B'

/-- The variant nibble set named by the specification: `{8,9,a,b,A,B}`
(no `|`).  Kept separate from `variantClassChar` to compare the code with
the spec's words. -/
def specVariantChar (c : Char) : Bool :=
  c == '8' || c == '9' || c == 'a' || c == 'b' || c == 'A' || c == 'B'

/-- Sequential matcher step: consume exactly `n` characters satisfying `p`,
returning the rest (regex `[class]{n}`). -/
def matchRun (p : Char → Bool) : Nat → List Char → Option (List Char)
  | 0, cs => some cs
  | _ + 1, [] => none
  | n + 1, c :: cs => if p c then matchRun p n cs else none

/-- The anchored UUID regex
`^[a-fA-F0-9]{8}-[a-fA-F0-9]{4}-4[a-fA-F0-9]{3}-[8|9|aA|bB][a-fA-F0-9]{3}-[a-fA-F0-9]{12}$`
as a sequential matcher, parameterized by the variant character class. -/
def uuidRegexMatch (variant : Char → Bool) (s : String) : Bool :=
  (some s.data
    |>.bind (matchRun hexChar 8)
    |>.bind (matchRun (· == '-') 1)
    |>.bind (matchRun hexChar 4)
    |>.bind (matchRun (· == '-') 1)
    |>.bind (matchRun (· == '4') 1)
    |>.bind (matchRun hexChar 3)
    |>.bind (matchRun (· == '-') 1)
    |>.bind (matchRun variant 1)
    |>.bind (matchRun hexChar 3)
    |>.bind (matchRun (· == '-') 1)
    |>.bind (matchRun hexChar 12)) == some []

/-- `IsValidUUID`: regexp match with the source's character classes. -/
def IsValidUUID (uuid : String) : Bool := uuidRegexMatch variantClassChar uuid

/-- The spec's wording of "matches the 8-4-4-4-12 hexadecimal pattern with
version nibble 4 and variant nibble in the given class", as a group
decomposition. -/
def uuidGroupsPattern (variant : Char → Bool) (s : String) : Prop :=
  ∃ g1 g2 g3 g4 g5 : List Char,
    s.data = g1 ++ ['-'] ++ g2 ++ ['-'] ++ g3 ++ ['-'] ++ g4 ++ ['-'] ++ g5
    ∧ g1.length = 8 ∧ g2.length = 4 ∧ g3.length = 4 ∧ g4.length = 4 ∧ g5.length = 12
    ∧ g1.all hexChar ∧ g2.all hexChar ∧ g5.all hexChar
    ∧ (∃ t3, g3 = '4' :: t3 ∧ t3.all hexChar)
    ∧ (∃ c4 t4, g4 = c4 :: t4 ∧ variant c4 = true ∧ t4.all hexChar)

/-! ## `findDynatraceDashboard` -/

/-- The three name/value tokens searched for by `findDynatraceDashboard`
(`findValues` in the source). -/
def findValues (keptnEvent : BaseKeptnEvent) : List String :=
  [strToLower ("project=" ++ keptnEvent.project),
   strToLower ("service=" ++ keptnEvent.service),
   strToLower ("stage=" ++ keptnEvent.stage)]

/-- The per-dashboard test of the `findDynatraceDashboard` loop: the
lowercased name must start with `kqg;`, and every token of `findValues`
must equal some `;`-split segment of the name, lowercased. -/
def dashboardNameMatches (fvs : List String) (name : String) : Bool :=
  if strStartsWith "kqg;" (strToLower name) then
    let nameSplits := strSplitOn name ";"
    fvs.all (fun fv => nameSplits.any (fun ns => fv == strToLower ns))
  else false

/-- `findDynatraceDashboard`: scan the dashboard list (as decoded from
`/api/config/v1/dashboards`) and return the ID of the first dashboard whose
name matches project/service/stage; `""` when none matches.  The HTTP fetch
and JSON decoding are outside the model (the list is the input). -/
def findDynatraceDashboard (keptnEvent : BaseKeptnEvent) (dashboards : List DashboardStub) : String :=
  match dashboards.find? (fun d => dashboardNameMatches (findValues keptnEvent) d.name) with
  | some d => d.id
  | none => ""

/-! ## `HasDashboardChanged` and the dashboard-unchanged short-circuit -/

/-- `HasDashboardChanged`: `newDashboardContent` is the indented JSON
serialization of the fetched dashboard (the `json.MarshalIndent` step is
performed by the caller of the model), `existingDashboardContent` the
previously stored one. -/
def HasDashboardChanged (newDashboardContent existingDashboardContent : String) : Bool :=
  if strContains newDashboardContent "KQG.QueryBehavior=ParseOnChange" = false then true
  else if newDashboardContent == existingDashboardContent then false
  else true

/-- The outcome of `QueryDynatraceDashboardForSLIs` (link label, SLI
indicator map, SLO objectives, SLI results; the parsed dashboard pointer is
omitted).  `none` fields model Go `nil` returns. -/
structure DashboardQueryOutcome where
  link : String
  sli : Option (List (String × String))
  slo : Option (List SLO)
  sliResults : Option (List SLIResult)
deriving DecidableEq, Repr

/-- The dashboard-unchanged short-circuit of `QueryDynatraceDashboardForSLIs`
(the code between computing `dashboardLinkAsLabel` and the tile loop): when
`HasDashboardChanged` reports no change, return only the link label; the
tile loop (abstracted as `processTiles`, quantified over in the theorems)
is never reached. -/
def queryDashboardShortCircuit (newContent existingContent link : String)
    (processTiles : Unit → DashboardQueryOutcome) : DashboardQueryOutcome :=
  if HasDashboardChanged newContent existingContent = false then
    { link := link, sli := none, slo := none, sliResults := none }
  else processTiles ()

/-! ## `replaceQueryParameters` and `BuildDynatraceMetricsQuery` -/

/-- `replaceQueryParameters`: substitute `$key` / `$KEY` placeholders from
the handler's custom filters, with quote characters stripped from values.
The commented-out default substitutions in the source are not active code. -/
def replaceQueryParameters (filters : List CustomFilter) (query : String) : String :=
  filters.foldl
    (fun q f =>
      let v := strRemoveChar (strRemoveChar f.value '\x27') '"'
      let q := strReplaceAll q ("$" ++ f.key) v
      strReplaceAll q ("$" ++ strToUpper f.key) v)
    query

/-- `url.ParseQuery` on a raw query string: split on `&`, split each
segment at the first `=`, skip segments with an empty key (percent-decoding
not modelled, see module comment). -/
def parseQueryParams (raw : String) : List (String × String) :=
  (strSplitOn raw "&").filterMap
    (fun seg =>
      let (k, v) := strBreakAtChar seg '='
      if k == "" then none else some (k, v))

/-- `url.Values.Get`: first value recorded for the key, `""` if absent. -/
def qGet (q : List (String × String)) (k : String) : String :=
  match q.find? (fun p => p.1 == k) with
  | some p => p.2
  | none => ""

/-- The compatibility rewriting at the top of `BuildDynatraceMetricsQuery`:
placeholder substitution, then auto-removal of a leading
`?metricSelector=`. -/
def metricsQueryAfterCompat (filters : List CustomFilter) (metricquery : String) : String :=
  let metricquery := replaceQueryParameters filters metricquery
  if strStartsWith "?metricSelector=" metricquery then
    strReplaceFirst metricquery "?metricSelector=" "metricSelector="
  else metricquery

/-- The `querySplit` step of `BuildDynatraceMetricsQuery`: split at `?`,
returning `(metricSelector, metricQueryParams)`.  Old-format queries
(`selector?params`) are rewritten to
`metricSelector=selector&params`; parts after a second `?` are dropped,
as in the source. -/
def metricsQuerySplit (metricquery : String) : String × String :=
  let querySplit := strSplitOn metricquery "?"
  if querySplit.length == 1 then
    ("", querySplit.headD "")
  else
    (querySplit.headD "",
     "metricSelector=" ++ querySplit.headD "" ++ "&" ++ (querySplit.drop 1).headD "")

/-- Modelled from the spec: `common_sli.TimestampToString` renders a window
bound as the backend-formatted timestamp (Unix milliseconds in decimal);
the function lives in the `common_sli` package, which is not part of the
provided sources. -/
def TimestampToString (t : Int) : String := toString t

/-- The parameter multimap of `BuildDynatraceMetricsQuery` after appending
the three default parameters `resolution`, `from` and `to` (the Go map
iteration order is unspecified; a fixed order is chosen — only multiset
content is observable through `Get`/`Encode` for distinct keys). -/
def metricsBaseParams (filters : List CustomFilter) (metricquery : String) (startUnix endUnix : Int) :
    List (String × String) :=
  parseQueryParams (metricsQuerySplit (metricsQueryAfterCompat filters metricquery)).2
    ++ [("resolution", "Inf"), ("from", TimestampToString startUnix), ("to", TimestampToString endUnix)]

/-- The legacy `scope` parameter value seen by `BuildDynatraceMetricsQuery`
(`q.Get("scope")` after the default parameters are added). -/
def metricsScopeData (filters : List CustomFilter) (metricquery : String) (startUnix endUnix : Int) : String :=
  qGet (metricsBaseParams filters metricquery startUnix endUnix) "scope"

/-- `BuildDynatraceMetricsQuery`: returns the final request (its parameter
multimap) and the extracted metric selector.  URL-syntax failures of
`url.Parse`/`url.ParseQuery` are not representable in the model (no claim
depends on them). -/
def BuildDynatraceMetricsQuery (filters : List CustomFilter) (metricquery : String)
    (startUnix endUnix : Int) : MetricsRequest × String :=
  let metricSelector := (metricsQuerySplit (metricsQueryAfterCompat filters metricquery)).1
  let q := metricsBaseParams filters metricquery startUnix endUnix
  let scopeData := metricsScopeData filters metricquery startUnix endUnix
  let q :=
    if scopeData ≠ "" then
      let scopeData :=
        if strContains scopeData "type(SERVICE)" = false then scopeData ++ ",type(SERVICE)"
        else scopeData
      q ++ [("entitySelector", scopeData)]
    else q
  let metricSelector := if metricSelector == "" then qGet q "metricSelector" else metricSelector
  (⟨q⟩, metricSelector)

/-! ## `isMatchingMetricID` -/

/-- `isMatchingMetricID`: exact match, else — for backend-escaped IDs
(containing `~`) — compare the parts before the first `:`. -/
def isMatchingMetricID (singleResultMetricID queryMetricID : String) : Bool :=
  if singleResultMetricID == queryMetricID then true
  else if strContains singleResultMetricID "~" then
    if strContains singleResultMetricID ":" then
      (strSplitOn singleResultMetricID ":").headD "" == (strSplitOn queryMetricID ":").headD ""
    else false
  else false

/-! ## Spec-modelled `common_sli` helpers -/

/-- Modelled from the spec: `common_sli.CleanIndicatorName` (not in the
provided sources) — "final indicator names pass through a name-cleaning
normalization (strip characters unsafe for downstream identifiers)".
Modelled as keeping ASCII letters, digits, `_` and `-`. -/
def CleanIndicatorName (name : String) : String :=
  ⟨name.data.filter
    (fun c => ('a' ≤ c && c ≤ 'z') || ('A' ≤ c && c ≤ 'Z') || ('0' ≤ c && c ≤ '9') || c == '_' || c == '-')⟩

/-- Modelled from the spec: `common_sli.ParsePassAndWarningFromString` (not
in the provided sources) — parses
`sli=<name>[;pass=<expr>][;warning=<expr>][;weight=<n>][;key=<bool>]`
from a `;`-separated title; returns (name, pass criteria, warning criteria,
weight, key-SLI flag), with weight defaulting to 1 and key to false. -/
def ParsePassAndWarningFromString (title : String) :
    String × List SLOCriteria × List SLOCriteria × Int × Bool :=
  (strSplitOn title ";").foldl
    (fun acc tok =>
      let (name, passC, warnC, weight, key) := acc
      if strStartsWith "sli=" tok then (strDrop tok 4, passC, warnC, weight, key)
      else if strStartsWith "pass=" tok then (name, passC ++ [⟨[strDrop tok 5]⟩], warnC, weight, key)
      else if strStartsWith "warning=" tok then (name, passC, warnC ++ [⟨[strDrop tok 8]⟩], weight, key)
      else if strStartsWith "weight=" tok then (name, passC, warnC, (parseNatLoose (strDrop tok 7) : Int), key)
      else if strStartsWith "key=" tok then (name, passC, warnC, weight, strDrop tok 4 == "true")
      else acc)
    ("", [], [], 1, false)

/-! ## `ExecuteMetricsAPIQuery` -/

/-- `ExecuteMetricsAPIQuery`: run the request through the HTTP oracle and
reject an empty `result` array. -/
def ExecuteMetricsAPIQuery (backend : MetricsBackend) (metricsQuery : MetricsRequest) :
    Except String DynatraceMetricsQueryResult :=
  match backend metricsQuery with
  | .error e => .error e
  | .ok result =>
    if result.result.length == 0 then .error "Dynatrace Metrics API returned no DataPoints"
    else .ok result

/-! ## `GenerateSLISLOFromMetricsAPIQuery` -/

/-- `dimensionIncrement` for a returned dimension list: 2 when it carries
name+ID pairs for every chart dimension (the `:names` transform), else 1. -/
def dimensionStride (noOfDimensionsInChart : Nat) (dims : List String) : Nat :=
  if dims.length == noOfDimensionsInChart * 2 then 2 else 1

/-- `dimensionIncrement` for one data row. -/
def dimensionIncrementOf (noOfDimensionsInChart : Nat) (entry : MetricQueryResultNumbers) : Nat :=
  dimensionStride noOfDimensionsInChart entry.dimensions

/-- The indices visited by `for dimIx := 0; dimIx < len; dimIx += inc`. -/
def strideIndices (len inc : Nat) : List Nat :=
  (List.range len).filter (fun i => i % inc == 0)

/-- The dimension loop of `GenerateSLISLOFromMetricsAPIQuery`, threading
`(indicatorName, metricQueryForSLI, filterSLIDefinitionAggregatorValue)`.
`dims.getD (i+1) ""` stands for the Go index expression
`singleDataEntry.Dimensions[dimIx+1]`, which is always in range when
`inc = 2` (the dimension count is then even). -/
def dimensionLoop (filterSLIDefinitionAggregator entitySelectorSLIDefinition : String)
    (dims : List String) (inc : Nat) (baseIndicatorName metricQuery : String) :
    String × String × String :=
  (strideIndices dims.length inc).foldl
    (fun acc i =>
      let (indicatorName, metricQueryForSLI, _) := acc
      let dimensionValue := dims.getD i ""
      let indicatorName := indicatorName ++ "_" ++ dimensionValue
      let filterValue := ":names" ++ strReplaceFirst filterSLIDefinitionAggregator "FILTERDIMENSIONVALUE" dimensionValue
      let metricQueryForSLI :=
        if entitySelectorSLIDefinition ≠ "" ∧ inc == 2 then
          metricQueryForSLI ++ strReplaceFirst entitySelectorSLIDefinition "FILTERDIMENSIONVALUE" (dims.getD (i + 1) "")
        else metricQueryForSLI
      (indicatorName, metricQueryForSLI, filterValue))
    (baseIndicatorName, metricQuery, ":names")

/-- The `(indicatorName, metricQueryForSLI, filterValue)` triple computed for
one data row: the dimension loop runs only when the row count exceeds 1. -/
def entryTriple (noOfDimensionsInChart : Nat)
    (baseIndicatorName metricQuery filterSLIDefinitionAggregator entitySelectorSLIDefinition : String)
    (dataResultCount : Nat) (entry : MetricQueryResultNumbers) : String × String × String :=
  if dataResultCount > 1 then
    dimensionLoop filterSLIDefinitionAggregator entitySelectorSLIDefinition entry.dimensions
      (dimensionIncrementOf noOfDimensionsInChart entry) baseIndicatorName metricQuery
  else (baseIndicatorName, metricQuery, ":names")

/-- The claim-level description of one expanded indicator name: the base
name suffixed (in order) with the row's dimension values taken at the
stride determined by the returned dimension count. -/
def dimensionSuffixedName (noOfDimensionsInChart : Nat) (baseIndicatorName : String)
    (dims : List String) : String :=
  (strideIndices dims.length (dimensionStride noOfDimensionsInChart dims)).foldl
    (fun n i => n ++ "_" ++ dims.getD i "") baseIndicatorName

/-- The cleaned indicator name emitted for one data row. -/
def entryIndicatorName (noOfDimensionsInChart : Nat)
    (baseIndicatorName metricQuery filterSLIDefinitionAggregator entitySelectorSLIDefinition : String)
    (dataResultCount : Nat) (entry : MetricQueryResultNumbers) : String :=
  CleanIndicatorName (entryTriple noOfDimensionsInChart baseIndicatorName metricQuery
    filterSLIDefinitionAggregator entitySelectorSLIDefinition dataResultCount entry).1

/-- The arithmetic mean of a data row's values followed by unit scaling
(Go computes `(Σ values) / len(values)`; an empty row gives NaN in Go,
`0` here — no claim touches it). -/
def entryValue (metricID metricUnit : String) (entry : MetricQueryResultNumbers) : ℚ :=
  scaleData metricID metricUnit ((entry.values.foldl (· + ·) 0) / (entry.values.length : ℚ))

/-- The `MV2;<unit>;<query>` SLI query string stored for one data row. -/
def entryStoredQuery (noOfDimensionsInChart : Nat)
    (baseIndicatorName metricQuery filterSLIDefinitionAggregator entitySelectorSLIDefinition metricUnit : String)
    (dataResultCount : Nat) (entry : MetricQueryResultNumbers) : String :=
  let t := entryTriple noOfDimensionsInChart baseIndicatorName metricQuery
    filterSLIDefinitionAggregator entitySelectorSLIDefinition dataResultCount entry
  "MV2;" ++ metricUnit ++ ";" ++ strReplaceFirst t.2.1 ":names" t.2.2

/-- Processing of one data row of a matching result (success case): append
the SLI result, record the indicator query string, append the SLO
objective. -/
def processDataEntry (noOfDimensionsInChart : Nat) (baseIndicatorName : String)
    (passSLOs warningSLOs : List SLOCriteria) (weight : Int) (keySli : Bool)
    (metricID metricUnit metricQuery filterSLIDefinitionAggregator entitySelectorSLIDefinition : String)
    (dataResultCount : Nat) (acc : GenResult) (entry : MetricQueryResultNumbers) : GenResult :=
  let name := entryIndicatorName noOfDimensionsInChart baseIndicatorName metricQuery
    filterSLIDefinitionAggregator entitySelectorSLIDefinition dataResultCount entry
  { sliResults := acc.sliResults ++ [{ metric := name, value := entryValue metricID metricUnit entry, success := true }]
    state :=
      { indicators := mapPut acc.state.indicators name
          (entryStoredQuery noOfDimensionsInChart baseIndicatorName metricQuery
            filterSLIDefinitionAggregator entitySelectorSLIDefinition metricUnit dataResultCount entry)
        objectives := acc.state.objectives
          ++ [{ sli := name, pass := passSLOs, warning := warningSLOs, weight := weight, keySLI := keySli }] } }

/-- Processing of one result entry: rows are processed only when the entry's
metric ID fuzzy-matches the expected one. -/
def processSingleResult (noOfDimensionsInChart : Nat) (baseIndicatorName : String)
    (passSLOs warningSLOs : List SLOCriteria) (weight : Int) (keySli : Bool)
    (metricID metricUnit metricQuery filterSLIDefinitionAggregator entitySelectorSLIDefinition : String)
    (acc : GenResult) (singleResult : MetricQueryResultValues) : GenResult :=
  if isMatchingMetricID singleResult.metricID metricID then
    singleResult.data.foldl
      (processDataEntry noOfDimensionsInChart baseIndicatorName passSLOs warningSLOs weight keySli
        metricID metricUnit metricQuery filterSLIDefinitionAggregator entitySelectorSLIDefinition
        singleResult.data.length)
      acc
  else acc

/-- `GenerateSLISLOFromMetricsAPIQuery`: execute the built query and turn
every data row of every matching result into an indicator; on failure emit
a single failed `SLIResult` carrying the error text and still record the
indicator query string. -/
def GenerateSLISLOFromMetricsAPIQuery (backend : MetricsBackend)
    (noOfDimensionsInChart : Nat) (baseIndicatorName : String)
    (passSLOs warningSLOs : List SLOCriteria) (weight : Int) (keySli : Bool)
    (metricID metricUnit metricQuery : String) (fullMetricQuery : MetricsRequest)
    (filterSLIDefinitionAggregator entitySelectorSLIDefinition : String)
    (dashboard : DashboardState) : GenResult :=
  match ExecuteMetricsAPIQuery backend fullMetricQuery with
  | .error e =>
    { sliResults := [{ metric := baseIndicatorName, value := 0, success := false, message := e }]
      state := { indicators := mapPut dashboard.indicators baseIndicatorName metricQuery
                 objectives := dashboard.objectives } }
  | .ok queryResult =>
    queryResult.result.foldl
      (processSingleResult noOfDimensionsInChart baseIndicatorName passSLOs warningSLOs weight keySli
        metricID metricUnit metricQuery filterSLIDefinitionAggregator entitySelectorSLIDefinition)
      { sliResults := [], state := dashboard }

/-! ## `getTimeseriesConfig` and `GetSLIValue` -/

/-- `getTimeseriesConfig`: custom query override, else one of five built-in
default queries, else an error. -/
def getTimeseriesConfig (customQueries : List (String × String)) (metric : String) :
    Except String String :=
  match mapGet? customQueries metric with
  | some val => .ok val
  | none =>
    if metric == "throughput" then
      .ok "metricSelector=builtin:service.requestCount.total:merge(0):sum&entitySelector=type(SERVICE),tag(keptn_project:$PROJECT),tag(keptn_stage:$STAGE),tag(keptn_service:$SERVICE),tag(keptn_deployment:$DEPLOYMENT)"
    else if metric == "error_rate" then
      .ok "metricSelector=builtin:service.errors.total.rate:merge(0):avg&entitySelector=type(SERVICE),tag(keptn_project:$PROJECT),tag(keptn_stage:$STAGE),tag(keptn_service:$SERVICE),tag(keptn_deployment:$DEPLOYMENT)"
    else if metric == "response_time_p50" then
      .ok "metricSelector=builtin:service.response.time:merge(0):percentile(50)&entitySelector=type(SERVICE),tag(keptn_project:$PROJECT),tag(keptn_stage:$STAGE),tag(keptn_service:$SERVICE),tag(keptn_deployment:$DEPLOYMENT)"
    else if metric == "response_time_p90" then
      .ok "metricSelector=builtin:service.response.time:merge(0):percentile(90)&entitySelector=type(SERVICE),tag(keptn_project:$PROJECT),tag(keptn_stage:$STAGE),tag(keptn_service:$SERVICE),tag(keptn_deployment:$DEPLOYMENT)"
    else if metric == "response_time_p95" then
      .ok "metricSelector=builtin:service.response.time:merge(0):percentile(95)&entitySelector=type(SERVICE),tag(keptn_project:$PROJECT),tag(keptn_stage:$STAGE),tag(keptn_service:$SERVICE),tag(keptn_deployment:$DEPLOYMENT)"
    else .error ("Unsupported SLI metric " ++ metric)

/-- The oracles of the five query endpoints used by `GetSLIValue`.  The
USQL, SLO and problem branches abstract `BuildDynatraceUSQLQuery` +
`ExecuteUSQLQuery` row scanning, `ExecuteGetDynatraceSLO`,
`ExecuteGetDynatraceProblems` and `ExecuteGetDynatraceSecurityProblems`
respectively (no claim depends on their internals); the metrics oracle is
as in `ExecuteMetricsAPIQuery`. -/
structure Backends where
  metrics : MetricsBackend
  usqlValue : String → String → String → Except String ℚ
  sloPercentage : String → Except String ℚ
  problemCount : String → Except String Int
  securityProblemCount : String → Except String Int

/-- The `MV2;<unit>;<query>` destructuring at the top of the legacy/`MV2`
branch of `GetSLIValue`: for an `MV2;`-prefixed query, strip the prefix and
split at the next `;` into `(metricUnit, query)`; otherwise the unit is
empty and the query is used as is. -/
def mv2UnitAndQuery (metricsQuery : String) : String × String :=
  if strStartsWith "MV2;" metricsQuery then
    strBreakAtChar (strDrop metricsQuery 4) ';'
  else ("", metricsQuery)

/-- The scan over `result.Result` in the legacy/`MV2` branch of
`GetSLIValue`: skip non-matching entries; on the first matching entry,
fail unless it has exactly one data row, else take its first value
(`i.Data[0].Values[0]`; an empty `Values` would panic in Go, `headD 0`
here — no claim touches it). -/
def scanMetricsResult (metricID : String) : List MetricQueryResultValues → Except String (Option ℚ)
  | [] => .ok none
  | i :: rest =>
    if isMatchingMetricID i.metricID metricID then
      match i.data with
      | [d] => .ok (some (d.values.headD 0))
      | ds => .error ("Dynatrace Metrics API returned " ++ toString ds.length
          ++ " result values, expected 1. Please ensure the response contains exactly one value (e.g., by using :merge(0):avg for the metric).")
    else scanMetricsResult metricID rest

/-- `GetSLIValue`: look up the stored query string for the logical metric
name and dispatch on its type prefix; the legacy/`MV2` branch re-runs the
metrics query and unit-scales the single returned value. -/
def GetSLIValue (b : Backends) (filters : List CustomFilter)
    (customQueries : List (String × String)) (metric : String)
    (startUnix endUnix : Int) : Except String ℚ :=
  match getTimeseriesConfig customQueries metric with
  | .error e => .error ("Error when fetching SLI config for " ++ metric ++ " " ++ e ++ ".")
  | .ok metricsQuery =>
    if strStartsWith "USQL;" metricsQuery then
      let querySplits := strSplitOn metricsQuery ";"
      if querySplits.length ≠ 4 then .error ("USQL Query incorrect format: " ++ metricsQuery)
      else
        match b.usqlValue (querySplits.getD 1 "") (querySplits.getD 2 "") (querySplits.getD 3 "") with
        | .error e => .error ("Error executing USQL Query " ++ e)
        | .ok v => .ok v
    else if strStartsWith "SLO;" metricsQuery then
      let querySplits := strSplitOn metricsQuery ";"
      if querySplits.length ≠ 2 then
        .error ("SLO Indicator query has wrong format. Should be SLO;<SLID> but is: " ++ metricsQuery)
      else
        match b.sloPercentage (querySplits.getD 1 "") with
        | .error e => .error ("Error executing SLO Dynatrace Query " ++ e)
        | .ok v => .ok v
    else if strStartsWith "PV2;" metricsQuery then
      let querySplits := strSplitOn metricsQuery ";"
      if querySplits.length ≠ 2 then
        .error ("Problemv2 Indicator query has wrong format. Should be PV2;entitySelectory=selector&problemSelector=selector but is: " ++ metricsQuery)
      else
        match b.problemCount (querySplits.getD 1 "") with
        | .error e => .error ("Error executing Dynatrace Problem v2 Query " ++ e)
        | .ok n => .ok (n : ℚ)
    else if strStartsWith "SECPV2;" metricsQuery then
      let querySplits := strSplitOn metricsQuery ";"
      if querySplits.length ≠ 2 then
        .error ("Security Problemv2 Indicator query has wrong format. Should be SECPV2;securityProblemSelector=selector but is: " ++ metricsQuery)
      else
        match b.securityProblemCount (querySplits.getD 1 "") with
        | .error e => .error ("Error executing Dynatrace Security Problem v2 Query " ++ e)
        | .ok n => .ok (n : ℚ)
    else
      let (metricUnit, metricsQuery) := mv2UnitAndQuery metricsQuery
      let built := BuildDynatraceMetricsQuery filters metricsQuery startUnix endUnix
      match ExecuteMetricsAPIQuery b.metrics built.1 with
      | .error e => .error ("Dynatrace Metrics API returned an error: " ++ e)
      | .ok result =>
        match scanMetricsResult built.2 result.result with
        | .error e => .error e
        | .ok none => .error ("Not able to query identifier " ++ metric ++ " from Dynatrace")
        | .ok (some v) => .ok (scaleData built.2 metricUnit v)

/-! ## Problem tiles (`OPEN_PROBLEMS` / `OPEN_SECURITY_PROBLEMS`) -/

/-- `ProcessOpenProblemTile`: build the problem query, fetch the open
problem count, and return the fixed-name indicator (`problems`), its
`PV2;` query string, and the zero-tolerance SLO definition.  Mirrors the
source faithfully, including the assignment that overwrites (rather than
appends to) `problemQuery` when an entity selector is present. -/
def ProcessOpenProblemTile (problemCountOracle : String → Except String Int)
    (problemSelector entitySelector : String) :
    Except String (SLIResult × String × String × SLO) :=
  let problemQuery := if problemSelector ≠ "" then "problemSelector=" ++ problemSelector else ""
  let problemQuery :=
    if entitySelector ≠ "" then
      (if problemQuery ≠ "" then "&" else "") ++ "entitySelector=" ++ entitySelector
    else problemQuery
  match problemCountOracle problemQuery with
  | .error e => .error e
  | .ok totalCount =>
    let indicatorName := "problems"
    let sliResult : SLIResult := { metric := indicatorName, value := (totalCount : ℚ), success := true }
    let sliQuery := "PV2;" ++ problemQuery
    let parsed := ParsePassAndWarningFromString ("sli=" ++ indicatorName ++ ";pass=<=0;key=true")
    .ok (sliResult, indicatorName, sliQuery,
      { sli := indicatorName, pass := parsed.2.1, warning := parsed.2.2.1,
        weight := parsed.2.2.2.1, keySLI := parsed.2.2.2.2 })

/-- `ProcessOpenSecurityProblemTile`: same shape for security problems with
fixed indicator name `security_problems` and a `SECPV2;` query string. -/
def ProcessOpenSecurityProblemTile (securityProblemCountOracle : String → Except String Int)
    (securityProblemSelector : String) :
    Except String (SLIResult × String × String × SLO) :=
  let problemQuery :=
    if securityProblemSelector ≠ "" then "securityProblemSelector=" ++ securityProblemSelector else ""
  match securityProblemCountOracle problemQuery with
  | .error e => .error e
  | .ok totalCount =>
    let indicatorName := "security_problems"
    let sliResult : SLIResult := { metric := indicatorName, value := (totalCount : ℚ), success := true }
    let sliQuery := "SECPV2;" ++ problemQuery
    let parsed := ParsePassAndWarningFromString ("sli=" ++ indicatorName ++ ";pass=<=0;key=true")
    .ok (sliResult, indicatorName, sliQuery,
      { sli := indicatorName, pass := parsed.2.1, warning := parsed.2.2.1,
        weight := parsed.2.2.2.1, keySLI := parsed.2.2.2.2 })

/-- The tile fields read by the two problem branches of the dashboard loop
(`tile.TileType` and the optional tile-level management-zone filter). -/
structure ProblemTile where
  tileType : String
  tileManagementZoneID : Option String
deriving DecidableEq, Repr

/-- The problem selector built inside a problem branch: the fixed open-state
predicate plus the dashboard-level and tile-level management-zone filters,
comma-joined, in this order. -/
def problemSelectorFor (openStatePredicate : String)
    (dashboardManagementZoneID tileManagementZoneID : Option String) : String :=
  let s := openStatePredicate
  let s := match dashboardManagementZoneID with
    | some id => s ++ ",managementZoneIds(" ++ id ++ ")"
    | none => s
  match tileManagementZoneID with
  | some id => s ++ ",managementZoneIds(" ++ id ++ ")"
  | none => s

/-- Append one successful problem-tile outcome to the accumulated results
(the success arm of `if err != nil { ... } else { ... }` in the loop). -/
def appendTileOutcome (acc : GenResult) (outcome : SLIResult × String × String × SLO) : GenResult :=
  { sliResults := acc.sliResults ++ [outcome.1]
    state := { indicators := mapPut acc.state.indicators outcome.2.1 outcome.2.2.1
               objectives := acc.state.objectives ++ [outcome.2.2.2] } }

/-- The two problem branches of the tile loop in
`QueryDynatraceDashboardForSLIs`, for a single tile: the first branch runs
for `OPEN_PROBLEMS` tiles, the second for `OPEN_SECURITY_PROBLEMS` — *or
again* for `OPEN_PROBLEMS` tiles (the source's condition is
`tile.TileType == "OPEN_SECURITY_PROBLEMS" || tile.TileType == "OPEN_PROBLEMS"`).
A branch whose backend call fails only logs and appends nothing. -/
def processTileProblemBranches (problemCountOracle securityProblemCountOracle : String → Except String Int)
    (dashboardManagementZoneID : Option String) (tile : ProblemTile) (acc : GenResult) : GenResult :=
  let acc :=
    if tile.tileType == "OPEN_PROBLEMS" then
      let problemSelector := problemSelectorFor "status(open)" dashboardManagementZoneID tile.tileManagementZoneID
      match ProcessOpenProblemTile problemCountOracle problemSelector "" with
      | .error _ => acc
      | .ok outcome => appendTileOutcome acc outcome
    else acc
  if tile.tileType == "OPEN_SECURITY_PROBLEMS" || tile.tileType == "OPEN_PROBLEMS" then
    let problemSelector := problemSelectorFor "status(OPEN)" dashboardManagementZoneID tile.tileManagementZoneID
    match ProcessOpenSecurityProblemTile securityProblemCountOracle problemSelector with
    | .error _ => acc
    | .ok outcome => appendTileOutcome acc outcome
  else acc

/-! ## Helper lemmas -/

theorem replaceFirstL_self (cs pat : List Char) : replaceFirstL cs pat pat = cs := by
  induction cs with
  | nil =>
    unfold replaceFirstL
    split <;> simp_all [List.isEmpty_iff]
  | cons c rest ih =>
    unfold replaceFirstL
    split
    · rename_i h
      obtain ⟨t, ht⟩ := List.isPrefixOf_iff_prefix.mp h.2
      conv_rhs => rw [← ht]
      rw [← ht, List.drop_left]
    · rw [ih]

theorem strReplaceFirst_self (s pat : String) : strReplaceFirst s pat pat = s := by
  cases s with
  | mk data => simp [strReplaceFirst, replaceFirstL_self]

theorem mapGet?_mapPut_self (m : List (String × String)) (k v : String) :
    mapGet? (mapPut m k v) k = some v := by
  induction m with
  | nil => simp [mapPut, mapGet?, List.find?]
  | cons p rest ih =>
    obtain ⟨k', v'⟩ := p
    by_cases h : k' = k
    · simp [mapPut, mapGet?, List.find?, h]
    · have hbeq : (k' == k) = false := beq_eq_false_iff_ne.mpr h
      simp only [mapPut, hbeq, if_false]
      simpa [mapGet?, List.find?, hbeq] using ih

theorem breakAtCharL_append_of_not_mem (sep : Char) (cs rest : List Char) (h : sep ∉ cs) :
    breakAtCharL sep (cs ++ sep :: rest) = (cs, rest) := by
  induction cs with
  | nil => simp [breakAtCharL]
  | cons c cs ih =>
    have hc : (c == sep) = false := by
      simp only [beq_eq_false_iff_ne]
      intro hcs
      exact h (by simp [hcs])
    simp only [List.cons_append, breakAtCharL, hc, Bool.false_eq_true, if_false, List.append_eq]
    rw [ih (fun hm => h (List.mem_cons_of_mem _ hm))]

/-! ## Claim C2 — unit scaling -/

/-- C2 counterexample: the claim "a value with any unit other than
MicroSecond and Byte is returned unscaled, for every metric ID" fails for
the metric ID `builtin:service.response.time`: with unit `"Foo"` the raw
value 1000 is scaled to 1, not returned unscaled. -/
theorem claim_C2_counterexample :
    ("Foo" ≠ "MicroSecond" ∧ "Foo" ≠ "Byte")
    ∧ scaleData "builtin:service.response.time" "Foo" 1000 = 1
    ∧ (1 : ℚ) ≠ 1000 := by
  refine ⟨by decide, ?_, by norm_num⟩
  rw [scaleData, if_pos (by decide)]
  norm_num

/-- C2 (amended): unit scaling — for every metric ID, 1,000,000 MicroSecond
scales to 1,000; 2048 Byte scales to 2 and any other unit is unscaled
*unless* the metric ID contains `builtin:service.response.time`, in which
case the value is divided by 1000 regardless of its unit. -/
theorem claim_C2_scaleData (metricID unit : String) (v : ℚ)
    (h1 : unit ≠ "MicroSecond") (h2 : unit ≠ "Byte") :
    scaleData metricID "MicroSecond" 1000000 = 1000
    ∧ scaleData metricID "Byte" 2048 =
        (if strContains metricID "builtin:service.response.time" then (2048 : ℚ) / 1000 else 2)
    ∧ scaleData metricID unit v =
        (if strContains metricID "builtin:service.response.time" then v / 1000 else v) := by
  have hb1 : (unit == "MicroSecond") = false := beq_eq_false_iff_ne.mpr h1
  have hb2 : (unit == "Byte") = false := beq_eq_false_iff_ne.mpr h2
  refine ⟨?_, ?_, ?_⟩
  · rw [scaleData, if_pos (by simp)]
    norm_num
  · cases hrt : strContains metricID "builtin:service.response.time" with
    | true => simp [scaleData, hrt]
    | false =>
      rw [scaleData, if_neg (by simp [hrt]), if_pos (by simp)]
      norm_num
  · cases hrt : strContains metricID "builtin:service.response.time" with
    | true => simp [scaleData, hrt]
    | false => simp [scaleData, hrt, hb1, hb2]

/-- C2 witness: the amended theorem applied at metric ID `"m"`, unit
`"Foo"`, value 7. -/
theorem claim_C2_scaleData_witness :
    ("Foo" ≠ "MicroSecond" ∧ "Foo" ≠ "Byte")
    ∧ (scaleData "m" "MicroSecond" 1000000 = 1000
      ∧ scaleData "m" "Byte" 2048 =
          (if strContains "m" "builtin:service.response.time" then (2048 : ℚ) / 1000 else 2)
      ∧ scaleData "m" "Foo" 7 =
          (if strContains "m" "builtin:service.response.time" then (7 : ℚ) / 1000 else 7)) :=
  ⟨⟨by decide, by decide⟩, claim_C2_scaleData "m" "Foo" 7 (by decide) (by decide)⟩

/-! ## Claim C7 — failed query emits a single failed SLIResult -/

/-- C7: when executing the built metrics query fails, the synthesizer
returns (rather than aborts with an error — the dashboard pass therefore
continues with the remaining tiles) exactly one `SLIResult` carrying the
base indicator name, value 0, `success = false` and the error text as its
message; the indicator is present in the output, with its query string
recorded. -/
theorem claim_C7_failed_query_single_result (backend : MetricsBackend)
    (noOfDimensionsInChart : Nat) (baseIndicatorName : String)
    (passSLOs warningSLOs : List SLOCriteria) (weight : Int) (keySli : Bool)
    (metricID metricUnit metricQuery : String) (fullMetricQuery : MetricsRequest)
    (filterSLIDefinitionAggregator entitySelectorSLIDefinition : String)
    (dashboard : DashboardState) (e : String)
    (hfail : backend fullMetricQuery = .error e) :
    GenerateSLISLOFromMetricsAPIQuery backend noOfDimensionsInChart baseIndicatorName
      passSLOs warningSLOs weight keySli metricID metricUnit metricQuery fullMetricQuery
      filterSLIDefinitionAggregator entitySelectorSLIDefinition dashboard =
    { sliResults := [{ metric := baseIndicatorName, value := 0, success := false, message := e }]
      state := { indicators := mapPut dashboard.indicators baseIndicatorName metricQuery
                 objectives := dashboard.objectives } } := by
  simp [GenerateSLISLOFromMetricsAPIQuery, ExecuteMetricsAPIQuery, hfail]

/-- C7 witness: a backend that fails with `"no connection"`. -/
theorem claim_C7_failed_query_single_result_witness :
    GenerateSLISLOFromMetricsAPIQuery (fun _ => .error "no connection") 0 "rt"
      [] [] 1 false "m" "Count" "metricSelector=m" ⟨[]⟩ "" "" ⟨[("a", "b")], []⟩ =
    { sliResults := [{ metric := "rt", value := 0, success := false, message := "no connection" }]
      state := { indicators := mapPut [("a", "b")] "rt" "metricSelector=m"
                 objectives := [] } } :=
  claim_C7_failed_query_single_result (fun _ => .error "no connection") 0 "rt"
    [] [] 1 false "m" "Count" "metricSelector=m" ⟨[]⟩ "" "" ⟨[("a", "b")], []⟩
    "no connection" rfl

/-! ## Claim C8 — unchanged-dashboard short-circuit -/

/-- C8: when the serialized dashboard content contains the
`KQG.QueryBehavior=ParseOnChange` marker and equals the previously stored
content, dashboard processing short-circuits to the deep-link label only —
no SLI definitions, SLO objectives or SLI results are produced, whatever
the tile processing would have yielded. -/
theorem claim_C8_unchanged_short_circuit (newContent existingContent link : String)
    (processTiles : Unit → DashboardQueryOutcome)
    (hmarker : strContains newContent "KQG.QueryBehavior=ParseOnChange" = true)
    (heq : newContent = existingContent) :
    queryDashboardShortCircuit newContent existingContent link processTiles =
      { link := link, sli := none, slo := none, sliResults := none } := by
  have hchanged : HasDashboardChanged newContent existingContent = false := by
    rw [HasDashboardChanged, if_neg (by simp [hmarker]), if_pos]
    simp [heq]
  simp [queryDashboardShortCircuit, hchanged]

/-- C8 witness: identical content with the marker present; the tile
processing continuation would produce an indicator, but is skipped. -/
theorem claim_C8_unchanged_short_circuit_witness :
    queryDashboardShortCircuit "x KQG.QueryBehavior=ParseOnChange y"
      "x KQG.QueryBehavior=ParseOnChange y" "link"
      (fun _ => { link := "other", sli := some [("a", "b")], slo := some [], sliResults := some [] }) =
      { link := "link", sli := none, slo := none, sliResults := none } :=
  claim_C8_unchanged_short_circuit "x KQG.QueryBehavior=ParseOnChange y"
    "x KQG.QueryBehavior=ParseOnChange y" "link" _ (by decide) rfl

/-! ## Claim C9 — dashboard search by name tokens -/

/-- C9: if some dashboard name carries the (case-insensitive) `kqg;` prefix
and contains the `project=`/`service=`/`stage=` tokens among its
`;`-separated segments (case-insensitively, in any order, alongside other
tokens — this is `dashboardNameMatches`), then `findDynatraceDashboard`
returns a matching dashboard's ID (the first one); and if one of the three
tokens appears in no dashboard name at all, it returns `""`. -/
theorem claim_C9_find_dashboard (keptnEvent : BaseKeptnEvent) (dashboards : List DashboardStub) :
    ((∃ d ∈ dashboards, dashboardNameMatches (findValues keptnEvent) d.name = true) →
      ∃ d ∈ dashboards, dashboardNameMatches (findValues keptnEvent) d.name = true
        ∧ findDynatraceDashboard keptnEvent dashboards = d.id)
    ∧ ((∃ fv ∈ findValues keptnEvent,
          ∀ d ∈ dashboards, ∀ ns ∈ strSplitOn d.name ";", fv ≠ strToLower ns) →
      findDynatraceDashboard keptnEvent dashboards = "") := by
  constructor
  · intro h
    match hf : dashboards.find? (fun d => dashboardNameMatches (findValues keptnEvent) d.name) with
    | some d =>
      exact ⟨d, List.mem_of_find?_eq_some hf, by simpa using List.find?_some hf,
        by simp [findDynatraceDashboard, hf]⟩
    | none =>
      obtain ⟨d, hd, hmatch⟩ := h
      exact absurd hmatch (by simpa using List.find?_eq_none.mp hf d hd)
  · rintro ⟨fv, hfv, habs⟩
    have hnone : dashboards.find? (fun d => dashboardNameMatches (findValues keptnEvent) d.name) = none := by
      rw [List.find?_eq_none]
      intro d hd hmatch
      simp only [dashboardNameMatches] at hmatch
      split at hmatch
      · have hall := (List.all_eq_true.mp hmatch) fv hfv
        obtain ⟨ns, hns, hbeq⟩ := List.any_eq_true.mp hall
        exact habs d hd ns hns (by simpa using hbeq)
      · simp at hmatch
    simp [findDynatraceDashboard, hnone]

/-- C9 witness: both directions at concrete dashboard lists — a matching
dashboard (with mixed case and extra tokens) is found by ID, and a list
whose names never contain the `stage=st` token yields `""`. -/
theorem claim_C9_find_dashboard_witness :
    (∃ d ∈ [(⟨"id1", "other", "o"⟩ : DashboardStub),
            ⟨"id2", "KQG;extra;Project=p1;service=S1;stage=st", "o"⟩],
        dashboardNameMatches (findValues ⟨"P1", "St", "S1"⟩) d.name = true
        ∧ findDynatraceDashboard ⟨"P1", "St", "S1"⟩
            [⟨"id1", "other", "o"⟩, ⟨"id2", "KQG;extra;Project=p1;service=S1;stage=st", "o"⟩] = d.id)
    ∧ findDynatraceDashboard ⟨"P1", "St", "S1"⟩
        [(⟨"id3", "KQG;project=p1;service=s1", "o"⟩ : DashboardStub)] = "" :=
  ⟨(claim_C9_find_dashboard ⟨"P1", "St", "S1"⟩
      [⟨"id1", "other", "o"⟩, ⟨"id2", "KQG;extra;Project=p1;service=S1;stage=st", "o"⟩]).1
      (by decide),
   (claim_C9_find_dashboard ⟨"P1", "St", "S1"⟩
      [⟨"id3", "KQG;project=p1;service=s1", "o"⟩]).2
      ⟨"stage=st", by decide, by decide⟩⟩

/-! ## Claim C10 — built metrics query parameters -/

/-- C10: for every query fragment, the built metrics query contains
`resolution=Inf` and `from`/`to` parameters holding the window bounds; and
when the fragment carries a legacy `scope=` parameter, the query contains
an `entitySelector` parameter with the scope's value, to which
`,type(SERVICE)` is appended unless the value already contains
`type(SERVICE)`. -/
theorem claim_C10_build_query_params (filters : List CustomFilter) (metricquery : String)
    (startUnix endUnix : Int) :
    (("resolution", "Inf") ∈ (BuildDynatraceMetricsQuery filters metricquery startUnix endUnix).1.params
      ∧ ("from", TimestampToString startUnix) ∈ (BuildDynatraceMetricsQuery filters metricquery startUnix endUnix).1.params
      ∧ ("to", TimestampToString endUnix) ∈ (BuildDynatraceMetricsQuery filters metricquery startUnix endUnix).1.params)
    ∧ (metricsScopeData filters metricquery startUnix endUnix ≠ "" →
        ("entitySelector",
          if strContains (metricsScopeData filters metricquery startUnix endUnix) "type(SERVICE)" = false
          then metricsScopeData filters metricquery startUnix endUnix ++ ",type(SERVICE)"
          else metricsScopeData filters metricquery startUnix endUnix)
          ∈ (BuildDynatraceMetricsQuery filters metricquery startUnix endUnix).1.params) := by
  constructor
  · simp only [BuildDynatraceMetricsQuery]
    split
    · refine ⟨?_, ?_, ?_⟩ <;> (apply List.mem_append_left; simp [metricsBaseParams])
    · refine ⟨?_, ?_, ?_⟩ <;> simp [metricsBaseParams]
  · intro hne
    simp only [BuildDynatraceMetricsQuery, if_pos hne]
    apply List.mem_append_right
    simp

/-- C10 witness: a fragment with a legacy scope lacking `type(SERVICE)`. -/
theorem claim_C10_build_query_params_witness :
    (("resolution", "Inf") ∈ (BuildDynatraceMetricsQuery [] "metricSelector=m&scope=tag(a)" 0 1).1.params
      ∧ ("from", TimestampToString 0) ∈ (BuildDynatraceMetricsQuery [] "metricSelector=m&scope=tag(a)" 0 1).1.params
      ∧ ("to", TimestampToString 1) ∈ (BuildDynatraceMetricsQuery [] "metricSelector=m&scope=tag(a)" 0 1).1.params)
    ∧ ("entitySelector",
        if strContains (metricsScopeData [] "metricSelector=m&scope=tag(a)" 0 1) "type(SERVICE)" = false
        then metricsScopeData [] "metricSelector=m&scope=tag(a)" 0 1 ++ ",type(SERVICE)"
        else metricsScopeData [] "metricSelector=m&scope=tag(a)" 0 1)
        ∈ (BuildDynatraceMetricsQuery [] "metricSelector=m&scope=tag(a)" 0 1).1.params :=
  ⟨(claim_C10_build_query_params [] "metricSelector=m&scope=tag(a)" 0 1).1,
   (claim_C10_build_query_params [] "metricSelector=m&scope=tag(a)" 0 1).2 (by decide)⟩

/-! ## Claim C4 — OPEN_PROBLEMS tiles run both problem branches -/

theorem str_append_ne_empty (a b : String) (h : a.data ≠ []) : a ++ b ≠ "" := by
  intro hcontra
  have hdata : a.data ++ b.data = [] := by
    have := congrArg String.data hcontra
    rwa [String.data_append] at this
  exact h (List.append_eq_nil.mp hdata).1

theorem problemSelectorFor_ne_empty (openState : String) (dmz tmz : Option String)
    (h : openState.data ≠ []) : problemSelectorFor openState dmz tmz ≠ "" := by
  cases dmz <;> cases tmz <;> simp only [problemSelectorFor]
  case none.none =>
    intro hc
    subst hc
    exact h rfl
  case none.some => exact str_append_ne_empty _ _ (by simp [String.data_append, h])
  case some.none => exact str_append_ne_empty _ _ (by simp [String.data_append, h])
  case some.some => exact str_append_ne_empty _ _ (by simp [String.data_append, h])

/-- C4: a tile of type `OPEN_PROBLEMS` is processed by *both* the
open-problems branch and the open-security-problems branch (whose condition
also tests for `OPEN_PROBLEMS`): when both backend calls succeed, one such
tile appends an SLIResult, an indicator entry and an SLO objective under
the fixed name `problems` and additionally under `security_problems`. -/
theorem claim_C4_open_problems_dual_processing
    (problemCountOracle securityProblemCountOracle : String → Except String Int)
    (dashboardManagementZoneID : Option String) (tile : ProblemTile) (acc : GenResult)
    (n₁ n₂ : Int)
    (htype : tile.tileType = "OPEN_PROBLEMS")
    (hp : problemCountOracle ("problemSelector="
      ++ problemSelectorFor "status(open)" dashboardManagementZoneID tile.tileManagementZoneID) = .ok n₁)
    (hs : securityProblemCountOracle ("securityProblemSelector="
      ++ problemSelectorFor "status(OPEN)" dashboardManagementZoneID tile.tileManagementZoneID) = .ok n₂) :
    processTileProblemBranches problemCountOracle securityProblemCountOracle
      dashboardManagementZoneID tile acc =
    { sliResults := acc.sliResults
        ++ [{ metric := "problems", value := (n₁ : ℚ), success := true },
            { metric := "security_problems", value := (n₂ : ℚ), success := true }]
      state :=
        { indicators :=
            mapPut (mapPut acc.state.indicators "problems"
                ("PV2;problemSelector="
                  ++ problemSelectorFor "status(open)" dashboardManagementZoneID tile.tileManagementZoneID))
              "security_problems"
              ("SECPV2;securityProblemSelector="
                ++ problemSelectorFor "status(OPEN)" dashboardManagementZoneID tile.tileManagementZoneID)
          objectives := acc.state.objectives
            ++ [{ sli := "problems", pass := [⟨["<=0"]⟩], warning := [], weight := 1, keySLI := true },
                { sli := "security_problems", pass := [⟨["<=0"]⟩], warning := [], weight := 1, keySLI := true }] } } := by
  have hne1 : problemSelectorFor "status(open)" dashboardManagementZoneID tile.tileManagementZoneID ≠ "" :=
    problemSelectorFor_ne_empty _ _ _ (by decide)
  have hne2 : problemSelectorFor "status(OPEN)" dashboardManagementZoneID tile.tileManagementZoneID ≠ "" :=
    problemSelectorFor_ne_empty _ _ _ (by decide)
  have hparse1 : ParsePassAndWarningFromString ("sli=" ++ "problems" ++ ";pass=<=0;key=true") =
      ("problems", [⟨["<=0"]⟩], [], 1, true) := by decide
  have hparse2 : ParsePassAndWarningFromString ("sli=" ++ "security_problems" ++ ";pass=<=0;key=true") =
      ("security_problems", [⟨["<=0"]⟩], [], 1, true) := by decide
  have hstr1 : ("PV2;" ++ ("problemSelector="
      ++ problemSelectorFor "status(open)" dashboardManagementZoneID tile.tileManagementZoneID) : String)
      = "PV2;problemSelector="
        ++ problemSelectorFor "status(open)" dashboardManagementZoneID tile.tileManagementZoneID := by
    rw [← String.append_assoc]
    rfl
  have hstr2 : ("SECPV2;" ++ ("securityProblemSelector="
      ++ problemSelectorFor "status(OPEN)" dashboardManagementZoneID tile.tileManagementZoneID) : String)
      = "SECPV2;securityProblemSelector="
        ++ problemSelectorFor "status(OPEN)" dashboardManagementZoneID tile.tileManagementZoneID := by
    rw [← String.append_assoc]
    rfl
  simp only [processTileProblemBranches, htype, beq_self_eq_true, if_true, Bool.or_true,
    ProcessOpenProblemTile, ProcessOpenSecurityProblemTile, if_pos hne1, if_pos hne2,
    if_neg (by simp : ¬("" : String) ≠ ""), hparse1, hparse2, hp, hs, appendTileOutcome,
    hstr1, hstr2]
  simp [List.append_assoc]

/-- C4 witness: a concrete `OPEN_PROBLEMS` tile with management zones on
both levels and successful counts 3 and 5. -/
theorem claim_C4_open_problems_dual_processing_witness :
    processTileProblemBranches (fun _ => .ok 3) (fun _ => .ok 5)
      (some "MZ1") ⟨"OPEN_PROBLEMS", some "MZ2"⟩ ⟨[], ⟨[], []⟩⟩ =
    { sliResults :=
        ([] : List SLIResult)
        ++ [{ metric := "problems", value := ((3 : Int) : ℚ), success := true },
            { metric := "security_problems", value := ((5 : Int) : ℚ), success := true }]
      state :=
        { indicators :=
            mapPut (mapPut [] "problems"
                ("PV2;problemSelector="
                  ++ problemSelectorFor "status(open)" (some "MZ1") (some "MZ2")))
              "security_problems"
              ("SECPV2;securityProblemSelector="
                ++ problemSelectorFor "status(OPEN)" (some "MZ1") (some "MZ2"))
          objectives :=
            ([] : List SLO)
            ++ [{ sli := "problems", pass := [⟨["<=0"]⟩], warning := [], weight := 1, keySLI := true },
                { sli := "security_problems", pass := [⟨["<=0"]⟩], warning := [], weight := 1, keySLI := true }] } } :=
  claim_C4_open_problems_dual_processing (fun _ => .ok 3) (fun _ => .ok 5)
    (some "MZ1") ⟨"OPEN_PROBLEMS", some "MZ2"⟩ ⟨[], ⟨[], []⟩⟩ 3 5 rfl rfl rfl

/-! ## Claim C5 — more than one data value is a hard error -/

/-- C5: when `GetSLIValue` replays a legacy bare or `MV2`-prefixed metrics
query and the result entry matching the expected metric ID contains two
data values, it fails with an error — it never returns a value. -/
theorem claim_C5_ambiguous_result_error (b : Backends) (filters : List CustomFilter)
    (customQueries : List (String × String)) (metric : String) (startUnix endUnix : Int)
    (q : String) (req : MetricsRequest) (metricID : String)
    (qr : DynatraceMetricsQueryResult) (i : MetricQueryResultValues)
    (hlookup : mapGet? customQueries metric = some q)
    (h1 : strStartsWith "USQL;" q = false) (h2 : strStartsWith "SLO;" q = false)
    (h3 : strStartsWith "PV2;" q = false) (h4 : strStartsWith "SECPV2;" q = false)
    (hbuild : BuildDynatraceMetricsQuery filters (mv2UnitAndQuery q).2 startUnix endUnix = (req, metricID))
    (hback : b.metrics req = .ok qr)
    (hres : qr.result = [i])
    (hmatch : isMatchingMetricID i.metricID metricID = true)
    (hdata : i.data.length = 2) :
    ∃ msg, GetSLIValue b filters customQueries metric startUnix endUnix = .error msg := by
  obtain ⟨d1, d2, hd⟩ := List.length_eq_two.mp hdata
  have hcomp : GetSLIValue b filters customQueries metric startUnix endUnix =
      .error ("Dynatrace Metrics API returned " ++ toString i.data.length
        ++ " result values, expected 1. Please ensure the response contains exactly one value (e.g., by using :merge(0):avg for the metric).") := by
    simp [GetSLIValue, getTimeseriesConfig, hlookup, h1, h2, h3, h4, hbuild,
      ExecuteMetricsAPIQuery, hback, hres, scanMetricsResult, hmatch, hd]
  exact ⟨_, hcomp⟩

/-- C5 witness: a backend returning two data rows for the matched metric. -/
theorem claim_C5_ambiguous_result_error_witness :
    ∃ msg, GetSLIValue
      ⟨fun _ => .ok ⟨1, "", [⟨"m", [⟨[], [], [1]⟩, ⟨[], [], [2]⟩]⟩]⟩,
        fun _ _ _ => .error "", fun _ => .error "", fun _ => .error "", fun _ => .error ""⟩
      [] [("rt", "metricSelector=m")] "rt" 0 1 = .error msg :=
  claim_C5_ambiguous_result_error
    ⟨fun _ => .ok ⟨1, "", [⟨"m", [⟨[], [], [1]⟩, ⟨[], [], [2]⟩]⟩]⟩,
      fun _ _ _ => .error "", fun _ => .error "", fun _ => .error "", fun _ => .error ""⟩
    [] [("rt", "metricSelector=m")] "rt" 0 1 "metricSelector=m"
    ⟨[("metricSelector", "m"), ("resolution", "Inf"), ("from", "0"), ("to", "1")]⟩ "m"
    ⟨1, "", [⟨"m", [⟨[], [], [1]⟩, ⟨[], [], [2]⟩]⟩]⟩
    ⟨"m", [⟨[], [], [1]⟩, ⟨[], [], [2]⟩]⟩
    rfl rfl rfl rfl rfl (by decide) rfl rfl (by decide) rfl

/-! ## Claim C6 — dimensioned results expand into N indicators -/

theorem dimensionLoop_foldl_fst (fAgg eSel : String) (dims : List String) (inc : Nat)
    (idxs : List Nat) (acc : String × String × String) :
    (idxs.foldl
      (fun acc i =>
        let (indicatorName, metricQueryForSLI, _) := acc
        let dimensionValue := dims.getD i ""
        let indicatorName := indicatorName ++ "_" ++ dimensionValue
        let filterValue := ":names" ++ strReplaceFirst fAgg "FILTERDIMENSIONVALUE" dimensionValue
        let metricQueryForSLI :=
          if eSel ≠ "" ∧ inc == 2 then
            metricQueryForSLI ++ strReplaceFirst eSel "FILTERDIMENSIONVALUE" (dims.getD (i + 1) "")
          else metricQueryForSLI
        (indicatorName, metricQueryForSLI, filterValue))
      acc).1
    = idxs.foldl (fun n i => n ++ "_" ++ dims.getD i "") acc.1 := by
  induction idxs generalizing acc with
  | nil => rfl
  | cons i rest ih =>
    obtain ⟨a, b, c⟩ := acc
    simp only [List.foldl_cons]
    rw [ih]

theorem dimensionLoop_fst (fAgg eSel : String) (dims : List String) (inc : Nat)
    (base mq : String) :
    (dimensionLoop fAgg eSel dims inc base mq).1 =
      (strideIndices dims.length inc).foldl (fun n i => n ++ "_" ++ dims.getD i "") base := by
  unfold dimensionLoop
  exact dimensionLoop_foldl_fst fAgg eSel dims inc _ (base, mq, ":names")

theorem entryIndicatorName_of_many (noOfDimensionsInChart : Nat)
    (base metricQuery fAgg eSel : String) (n : Nat) (entry : MetricQueryResultNumbers)
    (hN : 1 < n) :
    entryIndicatorName noOfDimensionsInChart base metricQuery fAgg eSel n entry =
      CleanIndicatorName (dimensionSuffixedName noOfDimensionsInChart base entry.dimensions) := by
  unfold entryIndicatorName entryTriple dimensionSuffixedName
  rw [if_pos hN, dimensionIncrementOf, dimensionLoop_fst]

theorem foldl_processDataEntry_sliResults (noOfDimensionsInChart : Nat) (base : String)
    (passSLOs warningSLOs : List SLOCriteria) (weight : Int) (keySli : Bool)
    (metricID metricUnit metricQuery fAgg eSel : String) (n : Nat)
    (l : List MetricQueryResultNumbers) (acc : GenResult) :
    (l.foldl (processDataEntry noOfDimensionsInChart base passSLOs warningSLOs weight keySli
        metricID metricUnit metricQuery fAgg eSel n) acc).sliResults =
      acc.sliResults ++ l.map (fun e =>
        { metric := entryIndicatorName noOfDimensionsInChart base metricQuery fAgg eSel n e,
          value := entryValue metricID metricUnit e, success := true }) := by
  induction l generalizing acc with
  | nil => simp
  | cons e rest ih =>
    simp only [List.foldl_cons, List.map_cons, ih, processDataEntry]
    simp [List.append_assoc]

theorem foldl_processDataEntry_objectives (noOfDimensionsInChart : Nat) (base : String)
    (passSLOs warningSLOs : List SLOCriteria) (weight : Int) (keySli : Bool)
    (metricID metricUnit metricQuery fAgg eSel : String) (n : Nat)
    (l : List MetricQueryResultNumbers) (acc : GenResult) :
    (l.foldl (processDataEntry noOfDimensionsInChart base passSLOs warningSLOs weight keySli
        metricID metricUnit metricQuery fAgg eSel n) acc).state.objectives =
      acc.state.objectives ++ l.map (fun e =>
        { sli := entryIndicatorName noOfDimensionsInChart base metricQuery fAgg eSel n e,
          pass := passSLOs, warning := warningSLOs, weight := weight, keySLI := keySli }) := by
  induction l generalizing acc with
  | nil => simp
  | cons e rest ih =>
    simp only [List.foldl_cons, List.map_cons, ih, processDataEntry]
    simp [List.append_assoc]

/-- C6: when the metrics query returns one matching result with N > 1 data
rows, exactly N indicator names are emitted in the order the backend
returned the rows, each the (cleaned) base name suffixed with that row's
dimension values at the stride determined by the returned dimension count
(2 for name+ID pairs, else 1 — `dimensionSuffixedName`), and each row
contributes one SLO objective sharing the tile's pass/warning/weight/key
settings. -/
theorem claim_C6_dimension_expansion (backend : MetricsBackend)
    (noOfDimensionsInChart : Nat) (baseIndicatorName : String)
    (passSLOs warningSLOs : List SLOCriteria) (weight : Int) (keySli : Bool)
    (metricID metricUnit metricQuery : String) (fullMetricQuery : MetricsRequest)
    (fAgg eSel : String) (dashboard : DashboardState)
    (qr : DynatraceMetricsQueryResult) (r : MetricQueryResultValues)
    (hback : backend fullMetricQuery = .ok qr)
    (hres : qr.result = [r])
    (hmatch : isMatchingMetricID r.metricID metricID = true)
    (hN : 1 < r.data.length) :
    ((GenerateSLISLOFromMetricsAPIQuery backend noOfDimensionsInChart baseIndicatorName
        passSLOs warningSLOs weight keySli metricID metricUnit metricQuery fullMetricQuery
        fAgg eSel dashboard).sliResults.length = r.data.length)
    ∧ ((GenerateSLISLOFromMetricsAPIQuery backend noOfDimensionsInChart baseIndicatorName
        passSLOs warningSLOs weight keySli metricID metricUnit metricQuery fullMetricQuery
        fAgg eSel dashboard).sliResults = r.data.map (fun e =>
          { metric := CleanIndicatorName
              (dimensionSuffixedName noOfDimensionsInChart baseIndicatorName e.dimensions),
            value := entryValue metricID metricUnit e, success := true }))
    ∧ ((GenerateSLISLOFromMetricsAPIQuery backend noOfDimensionsInChart baseIndicatorName
        passSLOs warningSLOs weight keySli metricID metricUnit metricQuery fullMetricQuery
        fAgg eSel dashboard).state.objectives = dashboard.objectives
          ++ r.data.map (fun e =>
            { sli := CleanIndicatorName
                (dimensionSuffixedName noOfDimensionsInChart baseIndicatorName e.dimensions),
              pass := passSLOs, warning := warningSLOs, weight := weight, keySLI := keySli })) := by
  have hmain : GenerateSLISLOFromMetricsAPIQuery backend noOfDimensionsInChart baseIndicatorName
      passSLOs warningSLOs weight keySli metricID metricUnit metricQuery fullMetricQuery
      fAgg eSel dashboard =
      r.data.foldl (processDataEntry noOfDimensionsInChart baseIndicatorName passSLOs warningSLOs
        weight keySli metricID metricUnit metricQuery fAgg eSel r.data.length)
        { sliResults := [], state := dashboard } := by
    simp [GenerateSLISLOFromMetricsAPIQuery, ExecuteMetricsAPIQuery, hback, hres,
      processSingleResult, hmatch]
  refine ⟨?_, ?_, ?_⟩
  · rw [hmain, foldl_processDataEntry_sliResults]
    simp
  · rw [hmain, foldl_processDataEntry_sliResults]
    simp [entryIndicatorName_of_many _ _ _ _ _ _ _ hN]
  · rw [hmain, foldl_processDataEntry_objectives]
    simp [entryIndicatorName_of_many _ _ _ _ _ _ _ hN]

/-- C6 witness: a data-explorer query returning 3 dimensioned rows, each
with a name+ID dimension pair (stride 2). -/
theorem claim_C6_dimension_expansion_witness :
    ((GenerateSLISLOFromMetricsAPIQuery
        (fun _ => .ok ⟨3, "", [⟨"m:names",
          [⟨["s1", "id1"], [], [1]⟩, ⟨["s2", "id2"], [], [2]⟩, ⟨["s3", "id3"], [], [3]⟩]⟩]⟩)
        1 "base" [⟨["<=100"]⟩] [] 2 false "m:names" "Count" "metricSelector=m:names"
        ⟨[]⟩ "" "" ⟨[], []⟩).sliResults.length =
      ([⟨["s1", "id1"], [], [1]⟩, ⟨["s2", "id2"], [], [2]⟩,
        (⟨["s3", "id3"], [], [3]⟩ : MetricQueryResultNumbers)] : List MetricQueryResultNumbers).length)
    ∧ ((GenerateSLISLOFromMetricsAPIQuery
        (fun _ => .ok ⟨3, "", [⟨"m:names",
          [⟨["s1", "id1"], [], [1]⟩, ⟨["s2", "id2"], [], [2]⟩, ⟨["s3", "id3"], [], [3]⟩]⟩]⟩)
        1 "base" [⟨["<=100"]⟩] [] 2 false "m:names" "Count" "metricSelector=m:names"
        ⟨[]⟩ "" "" ⟨[], []⟩).sliResults =
      ([⟨["s1", "id1"], [], [1]⟩, ⟨["s2", "id2"], [], [2]⟩,
        (⟨["s3", "id3"], [], [3]⟩ : MetricQueryResultNumbers)] : List MetricQueryResultNumbers).map (fun e =>
          { metric := CleanIndicatorName (dimensionSuffixedName 1 "base" e.dimensions),
            value := entryValue "m:names" "Count" e, success := true }))
    ∧ ((GenerateSLISLOFromMetricsAPIQuery
        (fun _ => .ok ⟨3, "", [⟨"m:names",
          [⟨["s1", "id1"], [], [1]⟩, ⟨["s2", "id2"], [], [2]⟩, ⟨["s3", "id3"], [], [3]⟩]⟩]⟩)
        1 "base" [⟨["<=100"]⟩] [] 2 false "m:names" "Count" "metricSelector=m:names"
        ⟨[]⟩ "" "" ⟨[], []⟩).state.objectives = ([] : List SLO)
          ++ ([⟨["s1", "id1"], [], [1]⟩, ⟨["s2", "id2"], [], [2]⟩,
            (⟨["s3", "id3"], [], [3]⟩ : MetricQueryResultNumbers)] : List MetricQueryResultNumbers).map (fun e =>
            { sli := CleanIndicatorName (dimensionSuffixedName 1 "base" e.dimensions),
              pass := [⟨["<=100"]⟩], warning := [], weight := 2, keySLI := false })) :=
  claim_C6_dimension_expansion
    (fun _ => .ok ⟨3, "", [⟨"m:names",
      [⟨["s1", "id1"], [], [1]⟩, ⟨["s2", "id2"], [], [2]⟩, ⟨["s3", "id3"], [], [3]⟩]⟩]⟩)
    1 "base" [⟨["<=100"]⟩] [] 2 false "m:names" "Count" "metricSelector=m:names"
    ⟨[]⟩ "" "" ⟨[], []⟩
    ⟨3, "", [⟨"m:names",
      [⟨["s1", "id1"], [], [1]⟩, ⟨["s2", "id2"], [], [2]⟩, ⟨["s3", "id3"], [], [3]⟩]⟩]⟩
    ⟨"m:names", [⟨["s1", "id1"], [], [1]⟩, ⟨["s2", "id2"], [], [2]⟩, ⟨["s3", "id3"], [], [3]⟩]⟩
    rfl rfl (by decide) (by decide)

/-! ## Claim C1 — MV2 round-trip -/

theorem mv2_store_data (u X : String) :
    ("MV2;" ++ u ++ ";" ++ X).data = 'M' :: 'V' :: '2' :: ';' :: (u.data ++ ';' :: X.data) := by
  have h1 : ("MV2;" : String).data = ['M', 'V', '2', ';'] := rfl
  have h2 : (";" : String).data = [';'] := rfl
  simp [String.data_append, h1, h2]

theorem mv2_store_not_usql (u X : String) :
    strStartsWith "USQL;" ("MV2;" ++ u ++ ";" ++ X) = false := by
  simp [strStartsWith, mv2_store_data, List.isPrefixOf,
    show (('U' : Char) == 'M') = false from rfl]

theorem mv2_store_not_slo (u X : String) :
    strStartsWith "SLO;" ("MV2;" ++ u ++ ";" ++ X) = false := by
  simp [strStartsWith, mv2_store_data, List.isPrefixOf,
    show (('S' : Char) == 'M') = false from rfl]

theorem mv2_store_not_pv2 (u X : String) :
    strStartsWith "PV2;" ("MV2;" ++ u ++ ";" ++ X) = false := by
  simp [strStartsWith, mv2_store_data, List.isPrefixOf,
    show (('P' : Char) == 'M') = false from rfl]

theorem mv2_store_not_secpv2 (u X : String) :
    strStartsWith "SECPV2;" ("MV2;" ++ u ++ ";" ++ X) = false := by
  simp [strStartsWith, mv2_store_data, List.isPrefixOf,
    show (('S' : Char) == 'M') = false from rfl]

theorem mv2_store_is_mv2 (u X : String) :
    strStartsWith "MV2;" ("MV2;" ++ u ++ ";" ++ X) = true := by
  simp [strStartsWith, mv2_store_data, List.isPrefixOf,
    show ("MV2;" : String).data = ['M', 'V', '2', ';'] from rfl]

theorem mv2UnitAndQuery_store (u X : String) (hu : ';' ∉ u.data) :
    mv2UnitAndQuery ("MV2;" ++ u ++ ";" ++ X) = (u, X) := by
  unfold mv2UnitAndQuery
  rw [if_pos (mv2_store_is_mv2 u X)]
  unfold strDrop strBreakAtChar
  rw [mv2_store_data]
  simp only [List.drop_succ_cons, List.drop_zero]
  rw [breakAtCharL_append_of_not_mem ';' u.data X.data hu]

/-- The stored query string of an unsplit (single-data-row) indicator is
`MV2;<unit>;<original query>`. -/
theorem entryStoredQuery_single (noOfDimensionsInChart : Nat)
    (base metricQuery fAgg eSel metricUnit : String) (entry : MetricQueryResultNumbers) :
    entryStoredQuery noOfDimensionsInChart base metricQuery fAgg eSel metricUnit 1 entry =
      "MV2;" ++ metricUnit ++ ";" ++ metricQuery := by
  unfold entryStoredQuery entryTriple
  rw [if_neg (by norm_num)]
  simp [strReplaceFirst_self]

/-- C1 (amended): the MV2 round-trip for a synthesized indicator whose
matching result has a single data row with a single value (the
`resolution=Inf` single-datapoint case): synthesis emits the indicator with
value `scaleData metricID metricUnit v`, stores
`MV2;<unit>;<query>` for it, and resolving that stored string through
`GetSLIValue` over the same window and against the same backend returns
exactly the same unit-scaled value. -/
theorem claim_C1_mv2_roundtrip (b : Backends) (filters : List CustomFilter)
    (customQueries : List (String × String)) (metric : String)
    (noOfDimensionsInChart : Nat) (baseIndicatorName : String)
    (passSLOs warningSLOs : List SLOCriteria) (weight : Int) (keySli : Bool)
    (metricUnit metricQuery fAgg eSel : String) (dashboard : DashboardState)
    (startUnix endUnix : Int) (req : MetricsRequest) (metricID : String)
    (qr : DynatraceMetricsQueryResult) (r : MetricQueryResultValues)
    (entry : MetricQueryResultNumbers) (v : ℚ)
    (hbuild : BuildDynatraceMetricsQuery filters metricQuery startUnix endUnix = (req, metricID))
    (hback : b.metrics req = .ok qr)
    (hres : qr.result = [r])
    (hmatch : isMatchingMetricID r.metricID metricID = true)
    (hdata : r.data = [entry])
    (hvals : entry.values = [v])
    (hunit : ';' ∉ metricUnit.data)
    (hlookup : mapGet? customQueries metric = some ("MV2;" ++ metricUnit ++ ";" ++ metricQuery)) :
    ((GenerateSLISLOFromMetricsAPIQuery b.metrics noOfDimensionsInChart baseIndicatorName
        passSLOs warningSLOs weight keySli metricID metricUnit metricQuery req fAgg eSel
        dashboard).sliResults
      = [{ metric := CleanIndicatorName baseIndicatorName,
           value := scaleData metricID metricUnit v, success := true }])
    ∧ (mapGet? (GenerateSLISLOFromMetricsAPIQuery b.metrics noOfDimensionsInChart baseIndicatorName
        passSLOs warningSLOs weight keySli metricID metricUnit metricQuery req fAgg eSel
        dashboard).state.indicators (CleanIndicatorName baseIndicatorName)
      = some ("MV2;" ++ metricUnit ++ ";" ++ metricQuery))
    ∧ GetSLIValue b filters customQueries metric startUnix endUnix
      = .ok (scaleData metricID metricUnit v) := by
  have hmain : GenerateSLISLOFromMetricsAPIQuery b.metrics noOfDimensionsInChart baseIndicatorName
      passSLOs warningSLOs weight keySli metricID metricUnit metricQuery req fAgg eSel dashboard =
      processDataEntry noOfDimensionsInChart baseIndicatorName passSLOs warningSLOs
        weight keySli metricID metricUnit metricQuery fAgg eSel 1
        { sliResults := [], state := dashboard } entry := by
    simp [GenerateSLISLOFromMetricsAPIQuery, ExecuteMetricsAPIQuery, hback, hres,
      processSingleResult, hmatch, hdata]
  have hname : entryIndicatorName noOfDimensionsInChart baseIndicatorName metricQuery fAgg eSel 1 entry
      = CleanIndicatorName baseIndicatorName := by
    unfold entryIndicatorName entryTriple
    rw [if_neg (by norm_num)]
  have hvalue : entryValue metricID metricUnit entry = scaleData metricID metricUnit v := by
    simp [entryValue, hvals]
  refine ⟨?_, ?_, ?_⟩
  · rw [hmain]
    simp [processDataEntry, hname, hvalue]
  · rw [hmain]
    simp only [processDataEntry, hname]
    rw [entryStoredQuery_single]
    exact mapGet?_mapPut_self _ _ _
  · simp only [GetSLIValue, getTimeseriesConfig, hlookup,
      mv2_store_not_usql, mv2_store_not_slo, mv2_store_not_pv2, mv2_store_not_secpv2,
      Bool.false_eq_true, if_false, mv2UnitAndQuery_store metricUnit metricQuery hunit,
      hbuild, ExecuteMetricsAPIQuery, hback, hres]
    simp [scanMetricsResult, hres, hmatch, hdata, hvals]

/-- C1 witness: single-row, single-value result for `metricSelector=m`,
unit `Count`, stored string `MV2;Count;metricSelector=m`. -/
theorem claim_C1_mv2_roundtrip_witness :
    ((GenerateSLISLOFromMetricsAPIQuery (fun _ => .ok ⟨1, "", [⟨"m", [⟨[], [], [5]⟩]⟩]⟩)
        1 "base" [] [] 1 false "m" "Count" "metricSelector=m"
        ⟨[("metricSelector", "m"), ("resolution", "Inf"), ("from", "0"), ("to", "1")]⟩ "" ""
        ⟨[], []⟩).sliResults
      = [{ metric := CleanIndicatorName "base",
           value := scaleData "m" "Count" 5, success := true }])
    ∧ (mapGet? (GenerateSLISLOFromMetricsAPIQuery (fun _ => .ok ⟨1, "", [⟨"m", [⟨[], [], [5]⟩]⟩]⟩)
        1 "base" [] [] 1 false "m" "Count" "metricSelector=m"
        ⟨[("metricSelector", "m"), ("resolution", "Inf"), ("from", "0"), ("to", "1")]⟩ "" ""
        ⟨[], []⟩).state.indicators (CleanIndicatorName "base")
      = some ("MV2;" ++ "Count" ++ ";" ++ "metricSelector=m"))
    ∧ GetSLIValue
        ⟨fun _ => .ok ⟨1, "", [⟨"m", [⟨[], [], [5]⟩]⟩]⟩,
          fun _ _ _ => .error "", fun _ => .error "", fun _ => .error "", fun _ => .error ""⟩
        [] [("rt", "MV2;Count;metricSelector=m")] "rt" 0 1
      = .ok (scaleData "m" "Count" 5) :=
  claim_C1_mv2_roundtrip
    ⟨fun _ => .ok ⟨1, "", [⟨"m", [⟨[], [], [5]⟩]⟩]⟩,
      fun _ _ _ => .error "", fun _ => .error "", fun _ => .error "", fun _ => .error ""⟩
    [] [("rt", "MV2;Count;metricSelector=m")] "rt" 1 "base" [] [] 1 false
    "Count" "metricSelector=m" "" "" ⟨[], []⟩ 0 1
    ⟨[("metricSelector", "m"), ("resolution", "Inf"), ("from", "0"), ("to", "1")]⟩ "m"
    ⟨1, "", [⟨"m", [⟨[], [], [5]⟩]⟩]⟩ ⟨"m", [⟨[], [], [5]⟩]⟩ ⟨[], [], [5]⟩ 5
    (by decide) rfl rfl (by decide) rfl rfl (by decide) rfl

/-- C1 counterexample: the round-trip fails as universally stated.  For a
single matching result row carrying the two values 0 and 2, synthesis
averages them (indicator value 1), while resolving the stored
`MV2;Count;metricSelector=m` string over the same window against the same
backend returns the row's *first* value, 0 ≠ 1. -/
theorem claim_C1_counterexample :
    ((GenerateSLISLOFromMetricsAPIQuery (fun _ => .ok ⟨1, "", [⟨"m", [⟨[], [], [0, 2]⟩]⟩]⟩)
        1 "base" [] [] 1 false "m" "Count" "metricSelector=m"
        ⟨[("metricSelector", "m"), ("resolution", "Inf"), ("from", "0"), ("to", "1")]⟩ "" ""
        ⟨[], []⟩).sliResults
      = [{ metric := "base", value := 1, success := true }])
    ∧ (mapGet? (GenerateSLISLOFromMetricsAPIQuery (fun _ => .ok ⟨1, "", [⟨"m", [⟨[], [], [0, 2]⟩]⟩]⟩)
        1 "base" [] [] 1 false "m" "Count" "metricSelector=m"
        ⟨[("metricSelector", "m"), ("resolution", "Inf"), ("from", "0"), ("to", "1")]⟩ "" ""
        ⟨[], []⟩).state.indicators "base"
      = some "MV2;Count;metricSelector=m")
    ∧ GetSLIValue
        ⟨fun _ => .ok ⟨1, "", [⟨"m", [⟨[], [], [0, 2]⟩]⟩]⟩,
          fun _ _ _ => .error "", fun _ => .error "", fun _ => .error "", fun _ => .error ""⟩
        [] [("base", "MV2;Count;metricSelector=m")] "base" 0 1
      = .ok 0
    ∧ (0 : ℚ) ≠ 1 := by
  have hclean : CleanIndicatorName "base" = "base" := by decide
  have hmatch : isMatchingMetricID "m" "m" = true := by decide
  have hscale : ∀ q : ℚ, scaleData "m" "Count" q = q := by
    intro q
    simp [scaleData,
      show strContains "m" "builtin:service.response.time" = false from by decide,
      show ("Count" == "MicroSecond") = false from by decide,
      show ("Count" == "Byte") = false from by decide]
  refine ⟨?_, by decide, by rfl, by norm_num⟩
  simp only [GenerateSLISLOFromMetricsAPIQuery, ExecuteMetricsAPIQuery]
  simp only [List.length_cons, List.length_nil, Nat.zero_add, List.foldl_cons, List.foldl_nil]
  simp [processSingleResult, hmatch, processDataEntry, entryIndicatorName, entryTriple,
    entryValue, hclean, hscale]

/-! ## Claim C3 — `IsValidUUID` -/

theorem matchRun_eq_some (p : Char → Bool) (n : Nat) (cs cs' : List Char) :
    matchRun p n cs = some cs' ↔
      ((cs.take n).length = n ∧ (cs.take n).all p = true ∧ cs' = cs.drop n) := by
  induction n generalizing cs cs' with
  | zero => simp [matchRun, eq_comm]
  | succ n ih =>
    cases cs with
    | nil => simp [matchRun]
    | cons c rest =>
      by_cases hc : p c = true
      · simp [matchRun, hc, ih, List.take_succ_cons, List.drop_succ_cons, List.all_cons]
      · simp [matchRun, hc, List.take_succ_cons, List.all_cons]

theorem matchRun_one_eq_some (p : Char → Bool) (l l' : List Char) :
    matchRun p 1 l = some l' ↔ ∃ c, l = c :: l' ∧ p c = true := by
  cases l with
  | nil => simp [matchRun]
  | cons c rest =>
    by_cases hc : p c = true
    · simp only [matchRun, hc, if_true]
      constructor
      · intro h
        exact ⟨c, by simpa [eq_comm] using h, hc⟩
      · rintro ⟨c', hcons, _⟩
        simp only [List.cons.injEq] at hcons
        simp [matchRun, hcons.2]
    · simp only [matchRun, hc, if_false]
      constructor
      · intro h
        cases h
      · rintro ⟨c', hcons, hc'⟩
        simp only [List.cons.injEq] at hcons
        exact absurd (hcons.1 ▸ hc') hc

theorem matchRun_append (p : Char → Bool) (n : Nat) (a b : List Char)
    (hlen : a.length = n) (hall : a.all p = true) : matchRun p n (a ++ b) = some b := by
  rw [matchRun_eq_some]
  subst hlen
  rw [List.take_left, List.drop_left]
  exact ⟨rfl, hall, rfl⟩

theorem matchRun_one_cons (p : Char → Bool) (c : Char) (l : List Char) (h : p c = true) :
    matchRun p 1 (c :: l) = some l := by
  simp [matchRun, h]

/-- The sequential regex matcher accepts exactly the strings admitted by the
8-4-4-4-12 group decomposition (with the same variant character class). -/
theorem uuidRegexMatch_iff_groups (variant : Char → Bool) (s : String) :
    uuidRegexMatch variant s = true ↔ uuidGroupsPattern variant s := by
  rw [uuidRegexMatch, beq_iff_eq]
  constructor
  · intro h
    obtain ⟨l10, h10, b11⟩ := Option.bind_eq_some.mp h
    obtain ⟨l9, h9, b10⟩ := Option.bind_eq_some.mp h10
    obtain ⟨l8, h8, b9⟩ := Option.bind_eq_some.mp h9
    obtain ⟨l7, h7, b8⟩ := Option.bind_eq_some.mp h8
    obtain ⟨l6, h6, b7⟩ := Option.bind_eq_some.mp h7
    obtain ⟨l5, h5, b6⟩ := Option.bind_eq_some.mp h6
    obtain ⟨l4, h4, b5⟩ := Option.bind_eq_some.mp h5
    obtain ⟨l3, h3, b4⟩ := Option.bind_eq_some.mp h4
    obtain ⟨l2, h2, b3⟩ := Option.bind_eq_some.mp h3
    obtain ⟨l1, h1, b2⟩ := Option.bind_eq_some.mp h2
    rw [Option.some_bind] at h1
    obtain ⟨alen, aall, adrop⟩ := (matchRun_eq_some _ _ _ _).mp h1
    obtain ⟨c2, hl1, hc2⟩ := (matchRun_one_eq_some _ _ _).mp b2
    obtain ⟨blen, ball, bdrop⟩ := (matchRun_eq_some _ _ _ _).mp b3
    obtain ⟨c3, hl3, hc3⟩ := (matchRun_one_eq_some _ _ _).mp b4
    obtain ⟨c5, hl4, hc5⟩ := (matchRun_one_eq_some _ _ _).mp b5
    obtain ⟨clen, call, cdrop⟩ := (matchRun_eq_some _ _ _ _).mp b6
    obtain ⟨c6, hl6, hc6⟩ := (matchRun_one_eq_some _ _ _).mp b7
    obtain ⟨c4, hl7, hc4⟩ := (matchRun_one_eq_some _ _ _).mp b8
    obtain ⟨dlen, dall, ddrop⟩ := (matchRun_eq_some _ _ _ _).mp b9
    obtain ⟨c9, hl9, hc9⟩ := (matchRun_one_eq_some _ _ _).mp b10
    obtain ⟨elen, eall, edrop⟩ := (matchRun_eq_some _ _ _ _).mp b11
    have hc2' : c2 = '-' := by simpa using hc2
    have hc3' : c3 = '-' := by simpa using hc3
    have hc5' : c5 = '4' := by simpa using hc5
    have hc6' : c6 = '-' := by simpa using hc6
    have hc9' : c9 = '-' := by simpa using hc9
    subst hc2' hc3' hc5' hc6' hc9'
    have hg5len : l10.length ≤ 12 := by
      have := edrop.symm
      exact List.drop_eq_nil_iff.mp this
    have hg5take : l10.take 12 = l10 := List.take_of_length_le hg5len
    have hg5len' : l10.length = 12 := by rw [← hg5take]; exact elen
    have hg5all : l10.all hexChar = true := by rw [← hg5take]; exact eall
    refine ⟨s.data.take 8, l2.take 4, '4' :: l5.take 3, c4 :: l8.take 3, l10,
      ?_, alen, blen, by simp [clen], by simp [dlen], hg5len',
      aall, ball, hg5all, ⟨l5.take 3, rfl, call⟩, ⟨c4, l8.take 3, rfl, hc4, dall⟩⟩
    have e0 : s.data = s.data.take 8 ++ l1 := by rw [adrop, List.take_append_drop]
    have e2 : l2 = l2.take 4 ++ l3 := by rw [bdrop, List.take_append_drop]
    have e5 : l5 = l5.take 3 ++ l6 := by rw [cdrop, List.take_append_drop]
    have e8 : l8 = l8.take 3 ++ l9 := by rw [ddrop, List.take_append_drop]
    conv_lhs => rw [e0, hl1, e2, hl3, hl4, e5, hl6, hl7, e8, hl9]
    simp [List.append_assoc]
  · rintro ⟨g1, g2, g3, g4, g5, hcs, h1, h2, h3, h4, h5, ha1, ha2, ha5,
      ⟨t3, hg3, ht3⟩, ⟨c4, t4, hg4, hc4, ht4⟩⟩
    subst hg3 hg4
    have ht3len : t3.length = 3 := by simpa using h3
    have ht4len : t4.length = 3 := by simpa using h4
    have hg5run : matchRun hexChar 12 g5 = some [] := by
      rw [matchRun_eq_some, List.take_of_length_le (le_of_eq h5),
        List.drop_eq_nil_of_le (le_of_eq h5)]
      exact ⟨h5, ha5, rfl⟩
    rw [hcs]
    simp only [List.append_assoc, List.cons_append, List.singleton_append, List.nil_append]
    rw [Option.some_bind, matchRun_append hexChar 8 g1 _ h1 ha1,
      Option.some_bind, matchRun_one_cons _ '-' _ rfl,
      Option.some_bind, matchRun_append hexChar 4 g2 _ h2 ha2,
      Option.some_bind, matchRun_one_cons _ '-' _ rfl,
      Option.some_bind, matchRun_one_cons _ '4' _ rfl,
      Option.some_bind, matchRun_append hexChar 3 t3 _ ht3len ht3,
      Option.some_bind, matchRun_one_cons _ '-' _ rfl,
      Option.some_bind, matchRun_one_cons variant c4 _ hc4,
      Option.some_bind, matchRun_append hexChar 3 t4 _ ht4len ht4,
      Option.some_bind, matchRun_one_cons _ '-' _ rfl,
      Option.some_bind, hg5run]

/-- C3 counterexample: the regex's variant character class `[8|9|aA|bB]`
also matches the literal character `|`, so `IsValidUUID` accepts
`00000000-0000-4000-|000-000000000000`, which does *not* match the 8-4-4-4-12
hexadecimal pattern with variant nibble in `{8,9,a,b,A,B}` stated by the
claim. -/
theorem claim_C3_counterexample :
    IsValidUUID "00000000-0000-4000-|000-000000000000" = true
    ∧ ¬ uuidGroupsPattern specVariantChar "00000000-0000-4000-|000-000000000000" := by
  refine ⟨by decide, ?_⟩
  intro h
  have := (uuidRegexMatch_iff_groups specVariantChar "00000000-0000-4000-|000-000000000000").mpr h
  exact absurd this (by decide)

/-- C3 (amended): `IsValidUUID s` returns true iff `s` matches the
8-4-4-4-12 hexadecimal pattern with version nibble `4` and variant nibble
in `{8,9,a,b,A,B}` *or the literal `|`* (the regex class `[8|9|aA|bB]`
contains `|`). -/
theorem claim_C3_isValidUUID (s : String) :
    IsValidUUID s = true ↔ uuidGroupsPattern variantClassChar s :=
  uuidRegexMatch_iff_groups variantClassChar s

end DynatraceService
